import Mathlib

set_option autoImplicit false

namespace LuxuryTravel

/-!  Shallow embedding of the luxury-travel-agent repository
     (src/tools/widgets/flight_widget.py, hotel_widget.py,
     restaurant_widget.py, src/tools/whatsapp_sender.py, src/main.py).
     Prices, ratings and scores are modelled over `ℚ`/`ℤ`; strings over
     `String` with char-list helpers mirroring the Python string methods. -/

/-- Computable floor of a rational, kept in integer-division form so the
kernel can evaluate it on concrete inputs. -/
def ratFloor (q : ℚ) : ℤ := q.num / q.den

/-- Computable ceiling of a rational. -/
def ratCeil (q : ℚ) : ℤ := -ratFloor (-q)

theorem ratFloor_eq (q : ℚ) : ratFloor q = ⌊q⌋ := Rat.floor_def.symm

theorem ratCeil_eq (q : ℚ) : ratCeil q = ⌈q⌉ := by
  have h := Int.ceil_neg (α := ℚ) (a := -q)
  rw [neg_neg] at h
  rw [ratCeil, ratFloor_eq, ← h]

/-- Python `int()` applied to a numeric value: truncation toward zero. -/
def pyInt (q : ℚ) : ℤ := if 0 ≤ q then ratFloor q else ratCeil q

theorem pyInt_eq (q : ℚ) : pyInt q = if 0 ≤ q then ⌊q⌋ else ⌈q⌉ := by
  rw [pyInt, ratFloor_eq, ratCeil_eq]

/-- Rounding used by Python `format(x, ',.0f')`: round half to even. -/
def roundHalfEven (q : ℚ) : ℤ :=
  let f := ratFloor q
  let r := q - (f : ℚ)
  if r < 1/2 then f
  else if 1/2 < r then f + 1
  else if f % 2 = 0 then f else f + 1

/-- Helper for thousands grouping: input is the reversed digit list, the
counter says how many digits were already emitted. -/
def groupRev : List Char → Nat → List Char
  | [], _ => []
  | c :: cs, i =>
      (if 0 < i ∧ i % 3 = 0 then [',', c] else [c]) ++ groupRev cs (i + 1)

/-- Python `f-string` formatting `{n:,}` of an integer (thousands separators). -/
def fmtThousands (n : ℤ) : String :=
  (if n < 0 then "-" else "") ++ String.mk ((groupRev (toString n.natAbs).data 0).reverse)

/-- Python `f"${q:,.0f}"`: dollar sign, round half-even to 0 decimals,
thousands separators. -/
def fmtMoney (q : ℚ) : String :=
  "$" ++ fmtThousands (roundHalfEven q)

def hexUpper (n : ℕ) : Char :=
  if n < 10 then Char.ofNat (48 + n) else Char.ofNat (55 + n)

/-- Percent-encoding of one character as in `urllib.parse.quote` with the
default `safe='/'` (ASCII inputs only, as in this repository). -/
def quoteChar (c : Char) : List Char :=
  if c.isAlphanum ∨ c = '_' ∨ c = '.' ∨ c = '-' ∨ c = '~' ∨ c = '/' then [c]
  else ['%', hexUpper (c.toNat / 16), hexUpper (c.toNat % 16)]

/-- Python `urllib.parse.quote(s)` for ASCII strings. -/
def pyQuote (s : String) : String := String.mk (s.data.flatMap quoteChar)

/-- Python `str.lower()` (ASCII). -/
def pyLower (s : String) : String := String.mk (s.data.map Char.toLower)

/-- Python `str.upper()` (ASCII). -/
def pyUpper (s : String) : String := String.mk (s.data.map Char.toUpper)

/-- Python `str.strip()`: drop whitespace at both ends. -/
def pyStrip (s : String) : String :=
  String.mk (((s.data.dropWhile Char.isWhitespace).reverse.dropWhile Char.isWhitespace).reverse)

/-- Python slicing `s[:n]` for `n ≥ 0`. -/
def pyTake (s : String) (n : ℕ) : String := String.mk (s.data.take n)

/-- Python slicing `s[-n:]` for `n > 0` (whole string when shorter than `n`). -/
def pyTakeRight (s : String) (n : ℕ) : String :=
  String.mk (s.data.drop (s.data.length - n))

def titleAux : Bool → List Char → List Char
  | _, [] => []
  | prevAlpha, c :: cs =>
      (if prevAlpha then c.toLower else c.toUpper) :: titleAux c.isAlpha cs

/-- Python `str.title()` (ASCII): uppercase every letter that does not follow
a letter, lowercase the rest. -/
def pyTitle (s : String) : String := String.mk (titleAux false s.data)

/-- Fuel-indexed worker for `pyReplace`; replaces non-overlapping occurrences
left to right exactly like Python `str.replace`. -/
def replaceAux (pat repl : List Char) : ℕ → List Char → List Char
  | _, [] => []
  | 0, s => s
  | fuel + 1, c :: cs =>
      if pat.isPrefixOf (c :: cs) then repl ++ replaceAux pat repl fuel ((c :: cs).drop pat.length)
      else c :: replaceAux pat repl fuel cs

/-- Python `s.replace(pat, repl)` for a non-empty pattern. -/
def pyReplace (s pat repl : String) : String :=
  String.mk (replaceAux pat.data repl.data s.data.length s.data)

/-- Python `s.startswith(p)`. -/
def pyStartsWith (s p : String) : Bool := p.data.isPrefixOf s.data

/-- Stable insertion into an already-sorted list: the new element goes in
front of the first element it is strictly before, after all ties. -/
def insertBy {α : Type} (lt : α → α → Bool) (x : α) : List α → List α
  | [] => [x]
  | y :: ys => if lt x y then x :: y :: ys else y :: insertBy lt x ys

/-- Python `list.sort(key=...)`: a stable sort, modelled as left-to-right
stable insertion (same ordering and same tie-breaking as Timsort). -/
def pySort {α : Type} (lt : α → α → Bool) (l : List α) : List α :=
  l.foldl (fun acc y => insertBy lt y acc) []

/-- Outcome of a per-domain provider call inside `search()`: the client is
not configured, or the call raised (caught and logged by the orchestrator),
or it returned a raw result list. -/
inductive ProviderOutcome (α : Type) where
  | notConfigured
  | failed
  | ok (results : List α)

/-- Spec-level urgency tier (§4.3 of the spec), shared by both domains. -/
inductive UrgencyTier where
  | low
  | medium
  | high
  | critical
deriving DecidableEq, Repr

/-- Spec §4.3 urgency mapping: score≥9→critical, ≥7→high, ≥5→medium, else low.
Written from the words of the spec, for comparison against the code. -/
def specUrgency (score : ℤ) : UrgencyTier :=
  if 9 ≤ score then .critical
  else if 7 ≤ score then .high
  else if 5 ≤ score then .medium
  else .low

/-- Numeric rank of an urgency tier, to state monotonicity. -/
def urgencyRank : UrgencyTier → ℕ
  | .low => 0
  | .medium => 1
  | .high => 2
  | .critical => 3

namespace FlightWidget

/-- flight_widget.py `CabinClass`. -/
inductive CabinClass where
  | ECONOMY
  | PREMIUM_ECONOMY
  | BUSINESS
  | FIRST
deriving DecidableEq, Repr

def CabinClass.value : CabinClass → String
  | .ECONOMY => "ECONOMY"
  | .PREMIUM_ECONOMY => "PREMIUM_ECONOMY"
  | .BUSINESS => "BUSINESS"
  | .FIRST => "FIRST"

/-- flight_widget.py `DealUrgency`. -/
inductive DealUrgency where
  | low
  | medium
  | high
  | critical
deriving DecidableEq, Repr

/-- View of a `DealUrgency` as the spec-level tier of §4.3. -/
def DealUrgency.tier : DealUrgency → UrgencyTier
  | .low => .low
  | .medium => .medium
  | .high => .high
  | .critical => .critical

/-- flight_widget.py `FlightSearchParams`. -/
structure FlightSearchParams where
  origin : String
  destination : String
  departureDate : String
  returnDate : Option String := none
  adults : ℕ := 1
  cabinClass : CabinClass := .BUSINESS
  maxResults : ℕ := 10
  maxPrice : Option ℚ := none
deriving DecidableEq

/-- flight_widget.py `FlightDeal`. -/
structure FlightDeal where
  id : String
  origin : String
  destination : String
  routeDisplay : String
  price : ℚ
  originalPrice : Option ℚ
  currency : String
  cabinClass : String
  airline : String
  airlineName : String
  departureDate : String
  returnDate : Option String
  departureTime : String
  arrivalTime : String
  duration : String
  stops : ℤ
  dealScore : ℤ
  savingsPercent : Option ℤ
  urgency : DealUrgency
  expiresAt : Option String
  isMistakeFare : Bool
  source : String
  deepLink : String
  bookingUrl : Option String
  imageUrl : Option String := none
deriving DecidableEq

/-- `FlightWidget.AIRLINES` (airline code to name mapping). -/
def AIRLINES : List (String × String) :=
  [("AA", "American Airlines"), ("UA", "United Airlines"), ("DL", "Delta Air Lines"),
   ("AF", "Air France"), ("BA", "British Airways"), ("LH", "Lufthansa"),
   ("EK", "Emirates"), ("SQ", "Singapore Airlines"), ("QF", "Qantas"),
   ("NH", "ANA"), ("JL", "Japan Airlines"), ("CX", "Cathay Pacific"),
   ("QR", "Qatar Airways"), ("TK", "Turkish Airlines"), ("EY", "Etihad Airways"),
   ("VS", "Virgin Atlantic"), ("AC", "Air Canada"), ("KL", "KLM"),
   ("IB", "Iberia"), ("AZ", "ITA Airways"), ("LX", "SWISS"),
   ("OS", "Austrian"), ("SK", "SAS"), ("AY", "Finnair"),
   ("SU", "Aeroflot"), ("KE", "Korean Air"), ("OZ", "Asiana Airlines"),
   ("CI", "China Airlines"), ("BR", "EVA Air"), ("MH", "Malaysia Airlines"),
   ("TG", "Thai Airways"), ("GA", "Garuda Indonesia"), ("NZ", "Air New Zealand"),
   ("LA", "LATAM"), ("AM", "Aeromexico"), ("AS", "Alaska Airlines"),
   ("WN", "Southwest Airlines"), ("B6", "JetBlue"), ("F9", "Frontier Airlines"),
   ("NK", "Spirit Airlines")]

/-- Per-cabin price thresholds of `FlightWidget._calculate_deal_score`. -/
structure FlightThresholds where
  excellent : ℚ
  good : ℚ
  average : ℚ

/-- The `thresholds` dictionary of `FlightWidget._calculate_deal_score`;
the dictionary holds every cabin class, so the `.get(cabin, …BUSINESS…)`
default never fires and the lookup is a total function. -/
def flightThresholds : CabinClass → FlightThresholds
  | .BUSINESS => ⟨2000, 3000, 4500⟩
  | .FIRST => ⟨4000, 6000, 9000⟩
  | .ECONOMY => ⟨400, 600, 900⟩
  | .PREMIUM_ECONOMY => ⟨800, 1200, 1800⟩

/-- `FlightWidget._calculate_deal_score`: classify price against the
cabin thresholds to a base score 9/7/5/3, subtract `0.5` per stop, apply
`max(1, min(10, int(...)))`. `stops` is `len(segments) - 1`, an `int` that
can be `-1` when a record carries an empty segment list. -/
def calculateDealScore (price : ℚ) (cabin : CabinClass) (stops : ℤ) : ℤ :=
  let t := flightThresholds cabin
  let baseScore : ℚ :=
    if price ≤ t.excellent then 9
    else if price ≤ t.good then 7
    else if price ≤ t.average then 5
    else 3
  let baseScore := baseScore - (stops : ℚ) * (1/2)
  max 1 (min 10 (pyInt baseScore))

/-- `FlightWidget._determine_urgency(deal_score, price)`; the `price`
argument is accepted but unused, as in the source. -/
def determineUrgency (dealScore : ℤ) (price : ℚ) : DealUrgency :=
  if 9 ≤ dealScore then .critical
  else if 7 ≤ dealScore then .high
  else if 5 ≤ dealScore then .medium
  else .low

/-- `FlightWidget._generate_sms_link`. -/
def generateSmsLink (origin destination : String) (price : Option ℚ) : String :=
  let message := "Book " ++ origin ++ "-" ++ destination
  let message :=
    match price with
    | some p => if p ≠ 0 then message ++ " for " ++ fmtMoney p else message
    | none => message
  "sms://+1234567890?body=" ++ pyQuote message

/-- One segment of a raw Amadeus flight offer, with the fields the parser
reads; a JSON key the record lacks is the corresponding default. -/
structure RawSegment where
  carrierCode : Option String := none
  departureAt : String := ""
  arrivalAt : String := ""
deriving DecidableEq

/-- One itinerary of a raw Amadeus flight offer. A record without an
`itineraries` key is represented with the default `[{}]` the code
substitutes; a `segments` key that is absent likewise becomes `[{}]`. -/
structure RawItinerary where
  segments : List RawSegment := [{}]
  duration : String := ""
deriving DecidableEq

/-- A raw Amadeus flight offer as read by `_parse_amadeus_results`;
`priceTotal` is the already-converted value of
`float(offer.get("price", {}).get("total", 0))`. -/
structure RawOffer where
  id : String := ""
  priceTotal : ℚ := 0
  itineraries : List RawItinerary := [{}]
deriving DecidableEq

/-- Body of the per-offer `try` block of
`FlightWidget._parse_amadeus_results`: `none` models the caught exception
(`itineraries[0]` on a present-but-empty list) that skips the record.
`expiresAt12h` stands for `(datetime.now() + timedelta(hours=12)).isoformat()`. -/
def parseAmadeusOffer (params : FlightSearchParams) (expiresAt12h : String)
    (offer : RawOffer) : Option FlightDeal :=
  match offer.itineraries with
  | [] => none
  | itinerary :: _ =>
    let segments := itinerary.segments
    let firstSegment := segments.head?.getD {}
    let lastSegment := segments.getLast?.getD firstSegment
    let airline := firstSegment.carrierCode.getD "XX"
    let price := offer.priceTotal
    let stops : ℤ := (segments.length : ℤ) - 1
    let dealScore := calculateDealScore price params.cabinClass stops
    let urgency := determineUrgency dealScore price
    some {
      id := "amadeus_" ++ offer.id
      origin := params.origin
      destination := params.destination
      routeDisplay := params.origin ++ " -> " ++ params.destination
      price := price
      originalPrice := if 7 ≤ dealScore then some (price * (27/20)) else none
      currency := "USD"
      cabinClass := params.cabinClass.value
      airline := airline
      airlineName := (AIRLINES.lookup airline).getD airline
      departureDate := params.departureDate
      returnDate := params.returnDate
      departureTime := pyTakeRight firstSegment.departureAt 5
      arrivalTime := pyTakeRight lastSegment.arrivalAt 5
      duration := pyLower (pyReplace itinerary.duration "PT" "")
      stops := stops
      dealScore := dealScore
      savingsPercent := if 7 ≤ dealScore then some 26 else none
      urgency := urgency
      expiresAt := if 8 ≤ dealScore then some expiresAt12h else none
      isMistakeFare := decide (9 ≤ dealScore)
      source := "amadeus"
      deepLink := generateSmsLink params.origin params.destination (some price)
      bookingUrl := none }

/-- `FlightWidget._parse_amadeus_results`: parse each offer, skipping the
ones whose `try` block raises. -/
def parseAmadeusResults (results : List RawOffer) (params : FlightSearchParams)
    (expiresAt12h : String) : List FlightDeal :=
  results.filterMap (parseAmadeusOffer params expiresAt12h)

/-- One value of the `mock_routes` table of `FlightWidget._get_mock_deals`. -/
structure MockRoute where
  airline : String
  name : String
  price : ℚ
  duration : String
deriving DecidableEq

/-- The `mock_routes` table of `FlightWidget._get_mock_deals`. -/
def mockRoutes : List ((String × String) × MockRoute) :=
  [(("JFK", "CDG"), ⟨"AF", "Air France", 1847, "7h 15m"⟩),
   (("JFK", "LHR"), ⟨"BA", "British Airways", 2150, "7h 00m"⟩),
   (("LAX", "NRT"), ⟨"JL", "Japan Airlines", 2890, "11h 30m"⟩),
   (("LAX", "HND"), ⟨"NH", "ANA", 2750, "11h 45m"⟩),
   (("SFO", "HND"), ⟨"UA", "United Airlines", 2650, "10h 30m"⟩),
   (("MIA", "LHR"), ⟨"BA", "British Airways", 2350, "8h 45m"⟩),
   (("JFK", "DXB"), ⟨"EK", "Emirates", 3200, "12h 30m"⟩)]

/-- `FlightWidget._get_mock_deals`. `jitter` stands for the value of
`random.randint(-200, 200)`, so `-200 ≤ jitter ≤ 200`; `expiresAt6h`
stands for `(datetime.now() + timedelta(hours=6)).isoformat()`. -/
def getMockDeals (params : FlightSearchParams) (jitter : ℤ)
    (expiresAt6h : String) : List FlightDeal :=
  let routeKey := (pyUpper params.origin, pyUpper params.destination)
  let data :=
    match mockRoutes.lookup routeKey with
    | some d => d
    | none => ⟨"AA", "American Airlines", 2500, "8h 00m"⟩
  let basePrice := data.price
  let price : ℚ := basePrice + (jitter : ℚ)
  [{ id := "amadeus_" ++ params.origin ++ "_" ++ params.destination
     origin := params.origin
     destination := params.destination
     routeDisplay := params.origin ++ " -> " ++ params.destination
     price := price
     originalPrice := some ((pyInt (price * (27/20)) : ℤ) : ℚ)
     currency := "USD"
     cabinClass := params.cabinClass.value
     airline := data.airline
     airlineName := data.name
     departureDate := params.departureDate
     returnDate := params.returnDate
     departureTime := "18:30"
     arrivalTime := "07:45"
     duration := data.duration
     stops := 0
     dealScore := 8
     savingsPercent := some 26
     urgency := .high
     expiresAt := some expiresAt6h
     isMistakeFare := false
     source := "amadeus"
     deepLink := generateSmsLink params.origin params.destination (some price)
     bookingUrl := none }]

/-- Sort order of `FlightWidget.search_flights`:
`key=lambda d: (-d.deal_score, d.price)` — ascending lexicographic. -/
def flightLt (a b : FlightDeal) : Bool :=
  decide (b.dealScore < a.dealScore ∨ (a.dealScore = b.dealScore ∧ a.price < b.price))

/-- `FlightWidget.search_flights`: Amadeus results (a caught provider
failure or an unconfigured client both leave the raw set empty), mock
fallback when no deals were parsed, stable sort, truncation to
`max_results`. -/
def searchFlights (outcome : ProviderOutcome RawOffer) (params : FlightSearchParams)
    (jitter : ℤ) (expiresAt12h expiresAt6h : String) : List FlightDeal :=
  let deals :=
    match outcome with
    | .notConfigured => []
    | .failed => []
    | .ok results => parseAmadeusResults results params expiresAt12h
  let deals := if deals.isEmpty then getMockDeals params jitter expiresAt6h else deals
  (pySort flightLt deals).take params.maxResults

end FlightWidget

namespace HotelWidget

/-- hotel_widget.py `HotelCategory`. -/
inductive HotelCategory where
  | LUXURY
  | BOUTIQUE
  | RESORT
  | BUSINESS
  | ALL
deriving DecidableEq, Repr

def HotelCategory.value : HotelCategory → String
  | .LUXURY => "luxury"
  | .BOUTIQUE => "boutique"
  | .RESORT => "resort"
  | .BUSINESS => "business"
  | .ALL => "all"

/-- The `HotelCategory(str)` enum constructor: `none` models the
`ValueError` raised on an unknown string. -/
def HotelCategory.fromString? (s : String) : Option HotelCategory :=
  if s = "luxury" then some .LUXURY
  else if s = "boutique" then some .BOUTIQUE
  else if s = "resort" then some .RESORT
  else if s = "business" then some .BUSINESS
  else if s = "all" then some .ALL
  else none

/-- hotel_widget.py `UrgencyLevel`. -/
inductive UrgencyLevel where
  | low
  | medium
  | high
  | critical
deriving DecidableEq, Repr

/-- View of an `UrgencyLevel` as the spec-level tier of §4.3. -/
def UrgencyLevel.tier : UrgencyLevel → UrgencyTier
  | .low => .low
  | .medium => .medium
  | .high => .high
  | .critical => .critical

/-- hotel_widget.py `HotelSearchParams`. -/
structure HotelSearchParams where
  location : String
  checkIn : String
  checkOut : String
  guests : ℕ := 2
  rooms : ℕ := 1
  minRating : ℚ := 4
  maxPrice : Option ℚ := none
  category : HotelCategory := .LUXURY
  amenities : Option (List String) := none
deriving DecidableEq

/-- hotel_widget.py `HotelResult`. A `coordinates` dict `{lat, lng}` is a
pair of optional numbers, matching the possibly-`None` values stored. -/
structure HotelResult where
  id : String
  name : String
  brand : Option String
  location : String
  city : String
  country : String
  rating : ℚ
  reviewCount : ℤ
  pricePerNight : ℚ
  originalPrice : Option ℚ
  totalPrice : ℚ
  currency : String
  category : HotelCategory
  starRating : ℤ
  imageUrl : String
  thumbnailUrl : String
  amenities : List String
  highlights : List String
  roomType : String
  dealScore : ℤ
  savingsPercent : Option ℤ
  urgency : UrgencyLevel
  source : String
  deepLink : String
  bookingUrl : Option String
  coordinates : Option (Option ℚ × Option ℚ)
deriving DecidableEq

/-- `HotelWidget.HOTEL_IMAGES`. -/
def HOTEL_IMAGES : List (String × String) :=
  [("paris", "https://images.unsplash.com/photo-1551882547-ff40c63fe5fa?w=800"),
   ("tokyo", "https://images.unsplash.com/photo-1590490360182-c33d57733427?w=800"),
   ("dubai", "https://images.unsplash.com/photo-1582719508461-905c673771fd?w=800"),
   ("maldives", "https://images.unsplash.com/photo-1439130490301-25e322d88054?w=800"),
   ("bali", "https://images.unsplash.com/photo-1537996194471-e657df975ab4?w=800"),
   ("miami", "https://images.unsplash.com/photo-1571896349842-33c89424de2d?w=800"),
   ("london", "https://images.unsplash.com/photo-1520250497591-112f2f40a3f4?w=800"),
   ("new york", "https://images.unsplash.com/photo-1542314831-068cd1dbfeeb?w=800"),
   ("whistler", "https://images.unsplash.com/photo-1548802673-380ab8ebc7b7?w=800"),
   ("vancouver", "https://images.unsplash.com/photo-1566073771259-6a8506099945?w=800"),
   ("aspen", "https://images.unsplash.com/photo-1584132967334-10e028bd69f7?w=800"),
   ("santorini", "https://images.unsplash.com/photo-1570077188670-e3a8d69ac5ff?w=800"),
   ("amalfi", "https://images.unsplash.com/photo-1602002418082-a4443e081dd1?w=800"),
   ("default", "https://images.unsplash.com/photo-1566073771259-6a8506099945?w=800")]

/-- `HotelWidget._get_hotel_image`: lookup with the `"default"` entry as
fallback. -/
def getHotelImage (location : String) : String :=
  (HOTEL_IMAGES.lookup (pyLower location)).getD
    "https://images.unsplash.com/photo-1566073771259-6a8506099945?w=800"

/-- `HotelWidget._calculate_deal_score`: price tiers 9/7/5/3, rating bonus
`(rating - 4.0) * 2` when `rating ≥ 4.0`, then `max(1, min(10, int(...)))`. -/
def calculateDealScore (price rating : ℚ) : ℤ :=
  let priceScore : ℚ :=
    if price ≤ 300 then 9
    else if price ≤ 500 then 7
    else if price ≤ 800 then 5
    else 3
  let ratingBonus : ℚ := if 4 ≤ rating then (rating - 4) * 2 else 0
  max 1 (min 10 (pyInt (priceScore + ratingBonus)))

/-- `HotelWidget._determine_urgency`. -/
def determineUrgency (dealScore : ℤ) : UrgencyLevel :=
  if 9 ≤ dealScore then .critical
  else if 7 ≤ dealScore then .high
  else if 5 ≤ dealScore then .medium
  else .low

/-- `HotelWidget._generate_sms_link`. -/
def generateSmsLink (hotelName : String) (price : ℚ) : String :=
  "sms://+1234567890?body=" ++ pyQuote ("Book " ++ hotelName ++ " at " ++ fmtMoney price ++ "/night")

/-- The `hotel` sub-dict of a raw Amadeus hotel offer; `rating` is the
already-converted value of `float(hotel_info.get("rating", 4.5))`. -/
structure RawHotelInfo where
  hotelId : String := ""
  name : Option String := none
  chainCode : Option String := none
  rating : ℚ := 4.5
  latitude : Option ℚ := none
  longitude : Option ℚ := none
deriving DecidableEq

/-- One entry of the `offers` array of a raw Amadeus hotel offer;
`priceTotal` is the converted `float(price_info.get("total", 0))` and
`roomText` the nested room-description text when present. -/
structure RawRoomOffer where
  priceTotal : ℚ := 0
  roomText : Option String := none
deriving DecidableEq

/-- A raw Amadeus hotel offer as read by `_parse_amadeus_results`
(hotel widget). An offer without an `offers` key gets the default `[{}]`;
a present-but-empty array raises on `[0]` and the record is skipped. -/
structure RawHotelOffer where
  hotel : RawHotelInfo := {}
  offers : List RawRoomOffer := [{}]
deriving DecidableEq

/-- Body of the per-offer `try` block of the hotel
`_parse_amadeus_results`. `nights` stands for
`_calculate_nights(params.check_in, params.check_out)`, which is ≥ 1 by
construction (`max(1, Δdays)` with exception fallback 1); the date
arithmetic itself is not modelled. -/
def parseAmadeusHotel (params : HotelSearchParams) (nights : ℕ)
    (offer : RawHotelOffer) : Option HotelResult :=
  match offer.offers with
  | [] => none
  | roomOffer :: _ =>
    let hotelInfo := offer.hotel
    let price := roomOffer.priceTotal
    let pricePerNight := if 0 < nights then price / (nights : ℚ) else price
    let rating := hotelInfo.rating
    let dealScore := calculateDealScore pricePerNight rating
    let city := params.location
    let imageUrl := getHotelImage (pyLower city)
    some {
      id := "amadeus_" ++ hotelInfo.hotelId
      name := hotelInfo.name.getD "Luxury Hotel"
      brand := hotelInfo.chainCode
      location := city
      city := city
      country := ""
      rating := rating
      reviewCount := pyInt (rating * 100)
      pricePerNight := pricePerNight
      originalPrice := if 7 ≤ dealScore then some (pricePerNight * (5/4)) else none
      totalPrice := price
      currency := "USD"
      category := .LUXURY
      starRating := pyInt rating
      imageUrl := imageUrl
      thumbnailUrl := pyReplace imageUrl "w=800" "w=200"
      amenities := ["Spa", "Pool", "Restaurant", "WiFi", "Gym"]
      highlights := ["City Center", "Luxury Amenities"]
      roomType := pyTake (roomOffer.roomText.getD "Deluxe Room") 50
      dealScore := dealScore
      savingsPercent := if 7 ≤ dealScore then some 20 else none
      urgency := determineUrgency dealScore
      source := "amadeus"
      deepLink := generateSmsLink (hotelInfo.name.getD "Luxury Hotel") pricePerNight
      bookingUrl := none
      coordinates :=
        match hotelInfo.latitude with
        | some lat => if lat ≠ 0 then some (some lat, hotelInfo.longitude) else none
        | none => none }

/-- Hotel `HotelWidget._parse_amadeus_results`. -/
def parseAmadeusResults (results : List RawHotelOffer) (params : HotelSearchParams)
    (nights : ℕ) : List HotelResult :=
  results.filterMap (parseAmadeusHotel params nights)

/-- A raw curated-hotel record as read by `_parse_curated_results`;
every field is optional because the code supplies a `.get` default for
each one (`originalPrice`, `savingsPercent`, `bookingUrl` and
`coordinates` default to `None`). `price`/`rating` are the converted
`float(...)` values. -/
structure CuratedHotelRecord where
  id : String := ""
  name : Option String := none
  brand : Option String := none
  location : Option String := none
  city : Option String := none
  country : Option String := none
  price : Option ℚ := none
  rating : Option ℚ := none
  reviewCount : Option ℤ := none
  category : Option String := none
  stars : Option ℤ := none
  imageUrl : Option String := none
  thumbnailUrl : Option String := none
  amenities : Option (List String) := none
  highlights : Option (List String) := none
  roomType : Option String := none
  originalPrice : Option ℚ := none
  savingsPercent : Option ℤ := none
  bookingUrl : Option String := none
  coordinates : Option (Option ℚ × Option ℚ) := none
deriving DecidableEq

/-- Body of the per-record `try` block of
`HotelWidget._parse_curated_results`: `none` models the `ValueError` of
`HotelCategory(...)` on an unknown category string, which skips the
record. Note the stored score is `deal_score + 1` (curated boost) while
`urgency` is computed from the un-boosted score, and
`original_price`/`savings_percent` are passed through from the raw
record. -/
def parseCuratedHotel (params : HotelSearchParams) (nights : ℕ)
    (r : CuratedHotelRecord) : Option HotelResult :=
  match HotelCategory.fromString? (r.category.getD "luxury") with
  | none => none
  | some category =>
    let price := r.price.getD 500
    let rating := r.rating.getD 4.8
    let dealScore := calculateDealScore price rating
    some {
      id := "curated_" ++ r.id
      name := r.name.getD "Luxury Hotel"
      brand := r.brand
      location := r.location.getD params.location
      city := r.city.getD params.location
      country := r.country.getD ""
      rating := rating
      reviewCount := r.reviewCount.getD 500
      pricePerNight := price
      originalPrice := r.originalPrice
      totalPrice := price * (nights : ℚ)
      currency := "USD"
      category := category
      starRating := r.stars.getD 5
      imageUrl := r.imageUrl.getD (getHotelImage "default")
      thumbnailUrl := r.thumbnailUrl.getD (pyReplace (r.imageUrl.getD "") "w=800" "w=200")
      amenities := r.amenities.getD ["Spa", "Pool", "Restaurant"]
      highlights := r.highlights.getD ["Award-winning"]
      roomType := r.roomType.getD "Deluxe Suite"
      dealScore := dealScore + 1
      savingsPercent := r.savingsPercent
      urgency := determineUrgency dealScore
      source := "curated"
      deepLink := generateSmsLink (r.name.getD "Luxury Hotel") price
      bookingUrl := r.bookingUrl
      coordinates := r.coordinates }

/-- `HotelWidget._parse_curated_results`. -/
def parseCuratedResults (results : List CuratedHotelRecord) (params : HotelSearchParams)
    (nights : ℕ) : List HotelResult :=
  results.filterMap (parseCuratedHotel params nights)

/-- Normalized dedup key of `HotelWidget.search_hotels`:
`hotel.name.lower().replace(" ", "")[:20]`. -/
def nameKey (name : String) : String :=
  pyTake (pyReplace (pyLower name) " " "") 20

/-- The dedup loop of `HotelWidget.search_hotels`: walk the list keeping a
hotel only when its normalized name key was not seen yet. -/
def dedupAux (seen : List String) : List HotelResult → List HotelResult
  | [] => []
  | h :: t =>
    let k := nameKey h.name
    if k ∈ seen then dedupAux seen t
    else h :: dedupAux (k :: seen) t

/-- Deduplication by name similarity, starting from an empty seen set. -/
def dedupHotels (hotels : List HotelResult) : List HotelResult :=
  dedupAux [] hotels

/-- One record of the `mock_data` table of `HotelWidget._get_mock_hotels`. -/
structure MockHotelRec where
  name : String
  brand : String
  price : ℚ
  rating : ℚ
deriving DecidableEq

/-- The `mock_data` table of `HotelWidget._get_mock_hotels`. -/
def mockHotelData : List (String × List MockHotelRec) :=
  [("miami",
    [⟨"Faena Miami Beach", "Faena", 750, 4.8⟩,
     ⟨"The Setai Miami Beach", "The Setai", 895, 4.9⟩,
     ⟨"Four Seasons Surf Club", "Four Seasons", 1100, 4.9⟩]),
   ("paris",
    [⟨"Four Seasons Hotel George V", "Four Seasons", 895, 4.9⟩,
     ⟨"Le Bristol Paris", "Oetker Collection", 1050, 4.9⟩,
     ⟨"Ritz Paris", "Ritz", 1200, 4.8⟩]),
   ("tokyo",
    [⟨"Aman Tokyo", "Aman", 1100, 4.9⟩,
     ⟨"Park Hyatt Tokyo", "Park Hyatt", 650, 4.8⟩,
     ⟨"The Peninsula Tokyo", "Peninsula", 750, 4.8⟩]),
   ("dubai",
    [⟨"Burj Al Arab Jumeirah", "Jumeirah", 1500, 4.9⟩,
     ⟨"One&Only The Palm", "One&Only", 950, 4.8⟩,
     ⟨"Armani Hotel Dubai", "Armani", 650, 4.7⟩]),
   ("london",
    [⟨"Claridge's", "Maybourne", 850, 4.9⟩,
     ⟨"The Connaught", "Maybourne", 950, 4.9⟩,
     ⟨"The Savoy", "Fairmont", 750, 4.8⟩]),
   ("new york",
    [⟨"The Mark", "The Mark", 1100, 4.9⟩,
     ⟨"Aman New York", "Aman", 1800, 4.9⟩,
     ⟨"The Carlyle", "Rosewood", 950, 4.8⟩]),
   ("maldives",
    [⟨"Soneva Fushi", "Soneva", 2500, 4.9⟩,
     ⟨"One&Only Reethi Rah", "One&Only", 2200, 4.9⟩,
     ⟨"Cheval Blanc Randheli", "LVMH", 3000, 4.9⟩]),
   ("whistler",
    [⟨"Four Seasons Resort Whistler", "Four Seasons", 895, 4.9⟩,
     ⟨"Fairmont Chateau Whistler", "Fairmont", 650, 4.8⟩,
     ⟨"Nita Lake Lodge", "Nita Lake", 450, 4.7⟩]),
   ("vancouver",
    [⟨"Fairmont Pacific Rim", "Fairmont", 650, 4.9⟩,
     ⟨"Rosewood Hotel Georgia", "Rosewood", 550, 4.8⟩,
     ⟨"Shangri-La Vancouver", "Shangri-La", 480, 4.8⟩]),
   ("aspen",
    [⟨"The Little Nell", "The Little Nell", 1200, 4.9⟩,
     ⟨"St. Regis Aspen Resort", "St. Regis", 1100, 4.9⟩,
     ⟨"The Limelight Hotel", "Limelight", 650, 4.7⟩]),
   ("bali",
    [⟨"Aman Villas at Nusa Dua", "Aman", 1500, 4.9⟩,
     ⟨"Four Seasons Resort Bali", "Four Seasons", 950, 4.9⟩,
     ⟨"Bulgari Resort Bali", "Bulgari", 1200, 4.8⟩]),
   ("santorini",
    [⟨"Canaves Oia Epitome", "Canaves", 1100, 4.9⟩,
     ⟨"Mystique Santorini", "Luxury Collection", 950, 4.8⟩,
     ⟨"Grace Hotel Santorini", "Auberge", 850, 4.8⟩]),
   ("amalfi",
    [⟨"Belmond Hotel Caruso", "Belmond", 1200, 4.9⟩,
     ⟨"Il San Pietro di Positano", "Independent", 1100, 4.9⟩,
     ⟨"Le Sirenuse", "Independent", 950, 4.8⟩])]

/-- The IATA-code-to-city `code_map` of `HotelWidget._get_mock_hotels`. -/
def hotelCodeMap : List (String × String) :=
  [("mia", "miami"), ("par", "paris"), ("tyo", "tokyo"), ("dxb", "dubai"),
   ("lon", "london"), ("nyc", "new york"), ("mle", "maldives"), ("lhr", "london"),
   ("yvr", "vancouver"), ("yws", "whistler"), ("dps", "bali"), ("jtr", "santorini"),
   ("nap", "amalfi"), ("ase", "aspen"), ("cdg", "paris"), ("hnd", "tokyo"),
   ("nrt", "tokyo"), ("jfk", "new york"), ("lax", "los angeles"), ("sfo", "san francisco")]

/-- `HotelWidget._get_mock_hotels`. `nights` stands for
`_calculate_nights(check_in, check_out)` as in `parseAmadeusHotel`.
The Python `if not hotels_data` guard covers both a missing key and an
empty list, so the generic three-hotel fallback also fires for an empty
table entry. -/
def getMockHotels (params : HotelSearchParams) (nights : ℕ) : List HotelResult :=
  let locationLower := pyStrip (pyLower params.location)
  let locationLower :=
    match hotelCodeMap.lookup locationLower with
    | some city => city
    | none => locationLower
  let hotelsData := (mockHotelData.lookup locationLower).getD []
  let displayName := pyTitle params.location
  let hotelsData :=
    if hotelsData.isEmpty then
      [⟨"Four Seasons " ++ displayName, "Four Seasons", 895, 4.9⟩,
       ⟨"Ritz-Carlton " ++ displayName, "Ritz-Carlton", 750, 4.8⟩,
       ⟨"St. Regis " ++ displayName, "St. Regis", 850, 4.8⟩]
    else hotelsData
  let displayCity :=
    if (mockHotelData.lookup locationLower).isSome then pyTitle locationLower
    else pyTitle params.location
  hotelsData.enum.map fun (idx, data) =>
    { id := "amadeus_" ++ locationLower ++ "_" ++ toString idx
      name := data.name
      brand := some data.brand
      location := displayCity
      city := displayCity
      country := ""
      rating := data.rating
      reviewCount := pyInt (data.rating * 500)
      pricePerNight := data.price
      originalPrice := some ((pyInt (data.price * (5/4)) : ℤ) : ℚ)
      totalPrice := data.price * (nights : ℚ)
      currency := "USD"
      category := .LUXURY
      starRating := 5
      imageUrl := getHotelImage locationLower
      thumbnailUrl := pyReplace (getHotelImage locationLower) "w=800" "w=200"
      amenities := ["Spa", "Pool", "Fine Dining", "Butler Service", "Gym"]
      highlights := ["City Center", "Award-winning Service"]
      roomType := "Deluxe Suite"
      dealScore := 8
      savingsPercent := some 20
      urgency := .high
      source := "amadeus"
      deepLink := generateSmsLink data.name data.price
      bookingUrl := none
      coordinates := none }

/-- Sort order of `HotelWidget.search_hotels`:
`key=lambda h: (-h.deal_score, -h.rating)`. -/
def hotelLt (a b : HotelResult) : Bool :=
  decide (b.dealScore < a.dealScore ∨ (a.dealScore = b.dealScore ∧ b.rating < a.rating))

/-- The raw (pre-dedup) result list of `HotelWidget.search_hotels`:
Amadeus results with mock fallback when nothing was parsed. -/
def rawSearchResults (outcome : ProviderOutcome RawHotelOffer)
    (params : HotelSearchParams) (nights : ℕ) : List HotelResult :=
  let results :=
    match outcome with
    | .notConfigured => []
    | .failed => []
    | .ok rs => parseAmadeusResults rs params nights
  if results.isEmpty then getMockHotels params nights else results

/-- `HotelWidget.search_hotels`: provider-or-mock, dedup by name key,
stable sort, truncation to 10. -/
def searchHotels (outcome : ProviderOutcome RawHotelOffer)
    (params : HotelSearchParams) (nights : ℕ) : List HotelResult :=
  let uniqueResults := dedupHotels (rawSearchResults outcome params nights)
  (pySort hotelLt uniqueResults).take 10

end HotelWidget

namespace RestaurantWidget

/-- restaurant_widget.py `CuisineType`. -/
inductive CuisineType where
  | french
  | italian
  | japanese
  | american
  | mediterranean
  | seafood
  | steakhouse
  | asian_fusion
  | fine_dining
  | all
deriving DecidableEq, Repr

/-- restaurant_widget.py `PriceRange`. -/
inductive PriceRange where
  | moderate
  | expensive
  | veryExpensive
deriving DecidableEq, Repr

/-- restaurant_widget.py `AvailabilityStatus`. -/
inductive AvailabilityStatus where
  | available
  | limited
  | waitlist
  | soldOut
deriving DecidableEq, Repr

/-- restaurant_widget.py `RestaurantSearchParams`. -/
structure RestaurantSearchParams where
  location : String
  date : String
  time : String
  partySize : ℕ := 2
  cuisine : CuisineType := .all
  priceRange : Option PriceRange := none
deriving DecidableEq

/-- restaurant_widget.py `RestaurantResult`. -/
structure RestaurantResult where
  id : String
  name : String
  cuisine : String
  cuisineDisplay : String
  location : String
  city : String
  neighborhood : String
  rating : ℚ
  reviewCount : ℤ
  priceRange : String
  michelinStars : ℤ
  imageUrl : String
  thumbnailUrl : String
  description : String
  highlights : List String
  availableTimes : List String
  availabilityStatus : AvailabilityStatus
  nextAvailable : Option String
  source : String
  deepLink : String
  bookingUrl : Option String
  coordinates : Option (Option ℚ × Option ℚ)
deriving DecidableEq

/-- `RestaurantWidget.CUISINE_IMAGES`. -/
def CUISINE_IMAGES : List (String × String) :=
  [("french", "https://images.unsplash.com/photo-1414235077428-338989a2e8c0?w=800"),
   ("italian", "https://images.unsplash.com/photo-1551183053-bf91a1d81141?w=800"),
   ("japanese", "https://images.unsplash.com/photo-1579871494447-9811cf80d66c?w=800"),
   ("american", "https://images.unsplash.com/photo-1544025162-d76694265947?w=800"),
   ("seafood", "https://images.unsplash.com/photo-1559339352-11d035aa65de?w=800"),
   ("steakhouse", "https://images.unsplash.com/photo-1600891964092-4316c288032e?w=800"),
   ("fine_dining", "https://images.unsplash.com/photo-1550966871-3ed3cdb5ed0c?w=800"),
   ("mediterranean", "https://images.unsplash.com/photo-1544124499-58912cbddaad?w=800"),
   ("default", "https://images.unsplash.com/photo-1517248135467-4c7edcad34c4?w=800")]

/-- One record of the `mock_data` table of
`RestaurantWidget._get_mock_restaurants`. -/
structure MockRestaurantRec where
  name : String
  cuisine : String
  cuisineDisplay : String
  neighborhood : String
  rating : ℚ
  reviews : ℤ
  price : String
  michelin : ℤ
  description : String
  highlights : List String
deriving DecidableEq

/-- The `"paris"` entry of the mock table; it doubles as the
`mock_data.get(..., mock_data["paris"])` fallback. -/
def parisRestaurants : List MockRestaurantRec :=
  [⟨"Le Cinq", "french", "French Fine Dining", "8th arrondissement", 4.9, 2847, "$$$$", 3,
    "Three Michelin star restaurant at Four Seasons George V",
    ["Michelin 3-Star", "Tasting Menu", "Wine Pairing"]⟩,
   ⟨"L'Ambroisie", "french", "Classic French", "Place des Vosges", 4.9, 1923, "$$$$", 3,
    "Legendary three-star in historic Place des Vosges",
    ["Michelin 3-Star", "Historic Setting", "Classic Cuisine"]⟩,
   ⟨"Septime", "french", "Modern French", "11th arrondissement", 4.7, 3421, "$$$", 1,
    "Innovative tasting menus in a minimalist setting",
    ["Michelin 1-Star", "Seasonal Menu", "Natural Wine"]⟩]

/-- The `mock_data` table of `RestaurantWidget._get_mock_restaurants`. -/
def mockRestaurantData : List (String × List MockRestaurantRec) :=
  [("paris", parisRestaurants),
   ("tokyo",
    [⟨"Sukiyabashi Jiro", "japanese", "Omakase Sushi", "Ginza", 4.9, 1256, "$$$$", 3,
      "World-famous sushi by Jiro Ono",
      ["Michelin 3-Star", "Omakase Only", "Reservation Required"]⟩,
     ⟨"Narisawa", "japanese", "Innovative Japanese", "Minami-Aoyama", 4.8, 2134, "$$$$", 2,
      "Avant-garde cuisine celebrating nature",
      ["Michelin 2-Star", "Sustainability", "World's 50 Best"]⟩,
     ⟨"Den", "japanese", "Creative Japanese", "Jingumae", 4.8, 1876, "$$$", 2,
      "Playful fine dining with Japanese soul",
      ["Michelin 2-Star", "Inventive", "Asia's 50 Best"]⟩]),
   ("new york",
    [⟨"Eleven Madison Park", "american", "Contemporary American", "Flatiron", 4.8, 4521, "$$$$", 3,
      "Plant-based tasting menu in Art Deco landmark",
      ["Michelin 3-Star", "Plant-Based", "World's Best"]⟩,
     ⟨"Le Bernardin", "seafood", "French Seafood", "Midtown", 4.9, 5234, "$$$$", 3,
      "Eric Ripert's legendary seafood temple",
      ["Michelin 3-Star", "Seafood", "40 Years"]⟩,
     ⟨"Carbone", "italian", "Italian-American", "Greenwich Village", 4.6, 6789, "$$$", 0,
      "Classic Italian-American in retro glamour",
      ["Celebrity Favorite", "Spicy Rigatoni", "Tableside Service"]⟩]),
   ("miami",
    [⟨"Fiola Miami", "italian", "Modern Italian", "Coral Gables", 4.7, 1823, "$$$$", 0,
      "Fabio Trabocchi's Italian excellence",
      ["James Beard Award", "Pasta", "Wine List"]⟩,
     ⟨"Ariete", "american", "New American", "Coconut Grove", 4.6, 2134, "$$$", 0,
      "Farm-to-table with Latin influences",
      ["Local Sourcing", "Cocktails", "Brunch"]⟩,
     ⟨"Stubborn Seed", "american", "Creative American", "South Beach", 4.7, 1567, "$$$$", 0,
      "Top Chef winner Jeremy Ford's flagship",
      ["Top Chef Winner", "Tasting Menu", "South Beach"]⟩]),
   ("london",
    [⟨"Restaurant Gordon Ramsay", "french", "French Fine Dining", "Chelsea", 4.8, 2345, "$$$$", 3,
      "Gordon Ramsay's flagship three-star",
      ["Michelin 3-Star", "Classic French", "Intimate"]⟩,
     ⟨"The Ledbury", "french", "Modern European", "Notting Hill", 4.8, 1987, "$$$$", 2,
      "Brett Graham's innovative cuisine",
      ["Michelin 2-Star", "Game Dishes", "Tasting Menu"]⟩,
     ⟨"Dishoom", "indian", "Bombay Cafe", "Covent Garden", 4.6, 8765, "$$", 0,
      "Beloved Bombay-style cafe and bar",
      ["Iconic Breakfast", "Black Daal", "No Reservations"]⟩])]

/-- `RestaurantWidget._get_mock_restaurants`. `availableTimes idx` stands
for the per-restaurant `sorted(random.sample(base_times, 4))` simulated
availability, the only randomized field. -/
def getMockRestaurants (params : RestaurantSearchParams)
    (availableTimes : ℕ → List String) : List RestaurantResult :=
  let locationLower := pyLower params.location
  let restaurantsData := (mockRestaurantData.lookup locationLower).getD parisRestaurants
  restaurantsData.enum.map fun (idx, data) =>
    let image := (CUISINE_IMAGES.lookup data.cuisine).getD
      "https://images.unsplash.com/photo-1517248135467-4c7edcad34c4?w=800"
    let times := availableTimes idx
    { id := "opentable_" ++ locationLower ++ "_" ++ toString idx
      name := data.name
      cuisine := data.cuisine
      cuisineDisplay := data.cuisineDisplay
      location := data.neighborhood ++ ", " ++ pyTitle params.location
      city := pyTitle params.location
      neighborhood := data.neighborhood
      rating := data.rating
      reviewCount := data.reviews
      priceRange := data.price
      michelinStars := data.michelin
      imageUrl := image
      thumbnailUrl := pyReplace image "w=800" "w=200"
      description := data.description
      highlights := data.highlights
      availableTimes := times
      availabilityStatus := if times.isEmpty then .limited else .available
      nextAvailable := times.head?
      source := "opentable"
      deepLink := "opentable://reserve?restaurant=" ++ pyReplace (pyLower data.name) " " "-"
      bookingUrl := some ("https://opentable.com/r/" ++ pyReplace (pyLower data.name) " " "-")
      coordinates := none }

/-- Sort order of `RestaurantWidget.search_restaurants`:
`key=lambda r: (-r.michelin_stars, -r.rating)`. -/
def restaurantLt (a b : RestaurantResult) : Bool :=
  decide (b.michelinStars < a.michelinStars ∨
    (a.michelinStars = b.michelinStars ∧ b.rating < a.rating))

/-- `RestaurantWidget.search_restaurants`: curated mock data only (no live
provider), stable sort, truncation to 10. -/
def searchRestaurants (params : RestaurantSearchParams)
    (availableTimes : ℕ → List String) : List RestaurantResult :=
  let results := getMockRestaurants params availableTimes
  (pySort restaurantLt results).take 10

end RestaurantWidget

namespace WhatsAppSender

/-- Result dictionary shape of `WhatsAppClient._send_message`; absent keys
are `none`. The `preview` field holds the message payload itself, modelled
as its serialized string. -/
structure SendResult where
  success : Bool
  mock : Option Bool := none
  message : Option String := none
  preview : Option String := none
  response : Option String := none
  error : Option String := none
deriving DecidableEq

/-- Outcome of the `httpx` POST inside `_send_message`: an HTTP response
(status code, `response.text`, `response.json()` serialized) or a raised
exception with its string rendering. -/
inductive HttpOutcome where
  | response (statusCode : ℕ) (text : String) (json : String)
  | exception (msg : String)
deriving DecidableEq

/-- `WhatsAppClient.is_configured`: `bool(access_token and phone_number_id)`;
an unset or empty environment variable is falsy. -/
def isConfigured (accessToken phoneNumberId : Option String) : Bool :=
  accessToken.getD "" ≠ "" && phoneNumberId.getD "" ≠ ""

/-- `WhatsAppClient._send_message`: mock preview when credentials are
absent, structured success/failure otherwise; every branch returns a
dictionary — nothing is raised past this boundary. -/
def sendMessage (accessToken phoneNumberId : Option String) (message : String)
    (outcome : HttpOutcome) : SendResult :=
  if !(isConfigured accessToken phoneNumberId) then
    { success := true
      mock := some true
      message := some "WhatsApp not configured - showing preview"
      preview := some message }
  else
    match outcome with
    | .response statusCode text json =>
        if statusCode = 200 then { success := true, response := some json }
        else { success := false, error := some text }
    | .exception msg => { success := false, error := some msg }

end WhatsAppSender

namespace Webhook

/-- Observable outcome of the `whatsapp_incoming` handler in main.py:
the HTTP status of the response, the `status` field of the returned JSON
body, and whether the message-processing section ran. -/
structure WebhookResponse where
  httpStatus : ℕ
  body : String
  processed : Bool
deriving DecidableEq

/-- main.py `whatsapp_incoming`, parametrized by the HMAC-SHA256 hex
digest function (`hmacSha256Hex secret body`), the configured
`WHATSAPP_APP_SECRET` (empty when unset), the `X-Hub-Signature-256`
header (empty when absent) and the raw body. `decodeOk` stands for
`body.decode('utf-8')` succeeding and `parseOk` for `json.loads`
succeeding. The `raise HTTPException(401)` sits inside the handler's own
`try`, whose `except Exception` catches it and returns the 200 error
body, so no branch produces a 401 response. -/
def whatsappIncoming (hmacSha256Hex : String → String → String)
    (appSecret signature rawBody : String) (decodeOk parseOk : Bool) : WebhookResponse :=
  if !decodeOk then ⟨200, "error", false⟩
  else
    let proceed : WebhookResponse :=
      if !parseOk then ⟨200, "error", false⟩ else ⟨200, "received", true⟩
    if appSecret ≠ "" ∧ signature ≠ "" then
      if signature ≠ "sha256=" ++ hmacSha256Hex appSecret rawBody then
        ⟨200, "error", false⟩
      else proceed
    else proceed

end Webhook

/-! Generic lemmas about the stable sort and truncation. -/

theorem mem_insertBy {α : Type} (lt : α → α → Bool) (x a : α) :
    ∀ l : List α, a ∈ insertBy lt x l ↔ a = x ∨ a ∈ l := by
  intro l
  induction l with
  | nil => simp [insertBy]
  | cons y ys ih =>
      simp only [insertBy]
      split
      · simp [List.mem_cons]
      · simp only [List.mem_cons, ih]
        tauto

theorem length_insertBy {α : Type} (lt : α → α → Bool) (x : α) :
    ∀ l : List α, (insertBy lt x l).length = l.length + 1 := by
  intro l
  induction l with
  | nil => simp [insertBy]
  | cons y ys ih =>
      simp only [insertBy]
      split
      · simp
      · simp [ih]

theorem mem_pySort_foldl {α : Type} (lt : α → α → Bool) (a : α) :
    ∀ (l acc : List α),
      (a ∈ l.foldl (fun acc y => insertBy lt y acc) acc ↔ a ∈ acc ∨ a ∈ l) := by
  intro l
  induction l with
  | nil => simp
  | cons y ys ih =>
      intro acc
      simp only [List.foldl_cons, ih, mem_insertBy, List.mem_cons]
      tauto

theorem mem_pySort {α : Type} (lt : α → α → Bool) (a : α) (l : List α) :
    a ∈ pySort lt l ↔ a ∈ l := by
  simp [pySort, mem_pySort_foldl]

theorem length_pySort_foldl {α : Type} (lt : α → α → Bool) :
    ∀ (l acc : List α),
      (l.foldl (fun acc y => insertBy lt y acc) acc).length = acc.length + l.length := by
  intro l
  induction l with
  | nil => simp
  | cons y ys ih =>
      intro acc
      simp only [List.foldl_cons, ih, length_insertBy, List.length_cons]
      omega

theorem length_pySort {α : Type} (lt : α → α → Bool) (l : List α) :
    (pySort lt l).length = l.length := by
  simp [pySort, length_pySort_foldl]

theorem take_pySort_ne_nil {α : Type} (lt : α → α → Bool) {l : List α} {n : ℕ}
    (hl : l ≠ []) (hn : 1 ≤ n) : (pySort lt l).take n ≠ [] := by
  apply List.ne_nil_of_length_pos
  rw [List.length_take, length_pySort]
  have := List.length_pos.mpr hl
  omega

/-! Lemmas about the deal-score clamp and the urgency step function. -/

theorem score_clamped (z : ℤ) : 1 ≤ max 1 (min 10 z) ∧ max 1 (min 10 z) ≤ 10 := by
  omega

/-- Every flight deal score is in the interval `[1, 10]`, for any price,
cabin and (possibly negative) stop count. -/
theorem flightScore_range (price : ℚ) (cabin : FlightWidget.CabinClass) (stops : ℤ) :
    1 ≤ FlightWidget.calculateDealScore price cabin stops ∧
    FlightWidget.calculateDealScore price cabin stops ≤ 10 := by
  unfold FlightWidget.calculateDealScore
  exact score_clamped _

/-- Every hotel deal score is in the interval `[1, 10]`, for any price and
rating. -/
theorem hotelScore_range (price rating : ℚ) :
    1 ≤ HotelWidget.calculateDealScore price rating ∧
    HotelWidget.calculateDealScore price rating ≤ 10 := by
  unfold HotelWidget.calculateDealScore
  exact score_clamped _

/-- The flight `_determine_urgency` implements the §4.3 step function of
its score argument (the price argument is ignored). -/
theorem flight_urgency_tier (s : ℤ) (p : ℚ) :
    (FlightWidget.determineUrgency s p).tier = specUrgency s := by
  unfold FlightWidget.determineUrgency specUrgency
  split_ifs <;> rfl

/-- The hotel `_determine_urgency` implements the §4.3 step function. -/
theorem hotel_urgency_tier (s : ℤ) :
    (HotelWidget.determineUrgency s).tier = specUrgency s := by
  unfold HotelWidget.determineUrgency specUrgency
  split_ifs <;> rfl

theorem specUrgency_mono {s t : ℤ} (h : s ≤ t) :
    urgencyRank (specUrgency s) ≤ urgencyRank (specUrgency t) := by
  unfold specUrgency
  split_ifs <;> simp only [urgencyRank] <;> omega

/-! Per-result facts about the flight parser and mock generator. -/

theorem parse_flight_offer_facts {params : FlightWidget.FlightSearchParams}
    {e : String} {o : FlightWidget.RawOffer} {d : FlightWidget.FlightDeal}
    (h : FlightWidget.parseAmadeusOffer params e o = some d) :
    (1 ≤ d.dealScore ∧ d.dealScore ≤ 10 ∧ d.urgency.tier = specUrgency d.dealScore) ∧
    (d.savingsPercent ≠ none ↔ 7 ≤ d.dealScore) ∧
    (d.originalPrice ≠ none ↔ 7 ≤ d.dealScore) ∧
    (7 ≤ d.dealScore → d.originalPrice = some (d.price * (27/20)) ∧ d.savingsPercent = some 26) ∧
    d.source = "amadeus" ∧ d.id = "amadeus_" ++ o.id := by
  rcases o with ⟨oid, price, its⟩
  cases its with
  | nil => simp [FlightWidget.parseAmadeusOffer] at h
  | cons itin rest =>
      simp only [FlightWidget.parseAmadeusOffer] at h
      obtain rfl := (Option.some.inj h).symm
      refine ⟨⟨?_, ?_, ?_⟩, ?_, ?_, ?_, rfl, rfl⟩
      · exact (flightScore_range price params.cabinClass ((itin.segments.length : ℤ) - 1)).1
      · exact (flightScore_range price params.cabinClass ((itin.segments.length : ℤ) - 1)).2
      · exact flight_urgency_tier
          (FlightWidget.calculateDealScore price params.cabinClass ((itin.segments.length : ℤ) - 1)) price
      · by_cases h7 : 7 ≤ FlightWidget.calculateDealScore price params.cabinClass
            ((itin.segments.length : ℤ) - 1) <;> simp [h7]
      · by_cases h7 : 7 ≤ FlightWidget.calculateDealScore price params.cabinClass
            ((itin.segments.length : ℤ) - 1) <;> simp [h7]
      · intro h7
        simp only at h7 ⊢
        simp [h7]

theorem mock_flight_deal_facts {params : FlightWidget.FlightSearchParams} {jitter : ℤ}
    {e : String} {d : FlightWidget.FlightDeal}
    (h : d ∈ FlightWidget.getMockDeals params jitter e) :
    d.dealScore = 8 ∧ d.urgency = .high ∧ d.source = "amadeus" ∧
    d.id = "amadeus_" ++ params.origin ++ "_" ++ params.destination := by
  simp only [FlightWidget.getMockDeals, List.mem_singleton] at h
  subst h
  exact ⟨rfl, rfl, rfl, rfl⟩

/-- A string starts with each of its appended prefixes. -/
theorem pyStartsWith_append (p s : String) : pyStartsWith (p ++ s) p = true := by
  have hd : (p ++ s).data = p.data ++ s.data := rfl
  simp [pyStartsWith, hd]

/-- Variant of `pyStartsWith_append` for the left-nested four-part
concatenations used in result ids. -/
theorem pyStartsWith_append3 (p x u y : String) :
    pyStartsWith (p ++ x ++ u ++ y) p = true := by
  have e : ∀ a b : String, (a ++ b).data = a.data ++ b.data := fun a b => rfl
  have hd : (p ++ x ++ u ++ y).data = p.data ++ (x.data ++ (u.data ++ y.data)) := by
    rw [e, e, e, List.append_assoc, List.append_assoc]
  simp [pyStartsWith, hd]

/-! Per-result facts about the hotel parsers and mock generator. -/

theorem parse_hotel_offer_facts {params : HotelWidget.HotelSearchParams} {nights : ℕ}
    {o : HotelWidget.RawHotelOffer} {d : HotelWidget.HotelResult}
    (h : HotelWidget.parseAmadeusHotel params nights o = some d) :
    (1 ≤ d.dealScore ∧ d.dealScore ≤ 10 ∧ d.urgency.tier = specUrgency d.dealScore) ∧
    (d.savingsPercent ≠ none ↔ 7 ≤ d.dealScore) ∧
    (d.originalPrice ≠ none ↔ 7 ≤ d.dealScore) ∧
    (7 ≤ d.dealScore → d.originalPrice = some (d.pricePerNight * (5/4)) ∧ d.savingsPercent = some 20) ∧
    d.source = "amadeus" ∧ d.id = "amadeus_" ++ o.hotel.hotelId := by
  rcases o with ⟨info, roomOffers⟩
  cases roomOffers with
  | nil => simp [HotelWidget.parseAmadeusHotel] at h
  | cons room rest =>
      simp only [HotelWidget.parseAmadeusHotel] at h
      obtain rfl := (Option.some.inj h).symm
      refine ⟨⟨?_, ?_, ?_⟩, ?_, ?_, ?_, rfl, rfl⟩
      · exact (hotelScore_range (if 0 < nights then room.priceTotal / (nights : ℚ)
          else room.priceTotal) info.rating).1
      · exact (hotelScore_range (if 0 < nights then room.priceTotal / (nights : ℚ)
          else room.priceTotal) info.rating).2
      · exact hotel_urgency_tier (HotelWidget.calculateDealScore
          (if 0 < nights then room.priceTotal / (nights : ℚ) else room.priceTotal) info.rating)
      · by_cases h7 : 7 ≤ HotelWidget.calculateDealScore
            (if 0 < nights then room.priceTotal / (nights : ℚ) else room.priceTotal)
            info.rating <;> simp [h7]
      · by_cases h7 : 7 ≤ HotelWidget.calculateDealScore
            (if 0 < nights then room.priceTotal / (nights : ℚ) else room.priceTotal)
            info.rating <;> simp [h7]
      · intro h7
        simp only at h7 ⊢
        simp [h7]

theorem parse_curated_facts {params : HotelWidget.HotelSearchParams} {nights : ℕ}
    {r : HotelWidget.CuratedHotelRecord} {d : HotelWidget.HotelResult}
    (h : HotelWidget.parseCuratedHotel params nights r = some d) :
    (2 ≤ d.dealScore ∧ d.dealScore ≤ 11 ∧ d.urgency.tier = specUrgency (d.dealScore - 1)) ∧
    d.originalPrice = r.originalPrice ∧ d.savingsPercent = r.savingsPercent ∧
    d.source = "curated" := by
  unfold HotelWidget.parseCuratedHotel at h
  cases hc : HotelWidget.HotelCategory.fromString? (r.category.getD "luxury") with
  | none => rw [hc] at h; exact absurd h (by simp)
  | some cat =>
      rw [hc] at h
      obtain rfl := (Option.some.inj h).symm
      have hr := hotelScore_range (r.price.getD 500) (r.rating.getD 4.8)
      refine ⟨⟨?_, ?_, ?_⟩, rfl, rfl, rfl⟩
      · show 2 ≤ HotelWidget.calculateDealScore (r.price.getD 500) (r.rating.getD 4.8) + 1
        omega
      · show HotelWidget.calculateDealScore (r.price.getD 500) (r.rating.getD 4.8) + 1 ≤ 11
        omega
      · show (HotelWidget.determineUrgency
            (HotelWidget.calculateDealScore (r.price.getD 500) (r.rating.getD 4.8))).tier =
          specUrgency (HotelWidget.calculateDealScore (r.price.getD 500) (r.rating.getD 4.8) + 1 - 1)
        rw [add_sub_cancel_right]
        exact hotel_urgency_tier _

theorem mock_hotel_facts {params : HotelWidget.HotelSearchParams} {nights : ℕ}
    {d : HotelWidget.HotelResult}
    (h : d ∈ HotelWidget.getMockHotels params nights) :
    d.dealScore = 8 ∧ d.urgency = .high ∧ d.source = "amadeus" ∧
    pyStartsWith d.id "amadeus_" = true := by
  simp only [HotelWidget.getMockHotels, List.mem_map] at h
  obtain ⟨⟨idx, data⟩, hmem, rfl⟩ := h
  exact ⟨rfl, rfl, rfl, pyStartsWith_append3 "amadeus_" _ "_" (toString idx)⟩

/-! Lemmas about the hotel deduplication loop. -/

theorem mem_dedupAux {seen : List String} {hs : List HotelWidget.HotelResult}
    {d : HotelWidget.HotelResult} (h : d ∈ HotelWidget.dedupAux seen hs) :
    HotelWidget.nameKey d.name ∉ seen ∧ d ∈ hs := by
  induction hs generalizing seen with
  | nil => simp [HotelWidget.dedupAux] at h
  | cons a t ih =>
      simp only [HotelWidget.dedupAux] at h
      split at h
      · have := ih h
        exact ⟨this.1, List.mem_cons.mpr (Or.inr this.2)⟩
      · next hk =>
          rcases List.mem_cons.mp h with rfl | h
          · exact ⟨hk, List.mem_cons_self _ _⟩
          · have := ih h
            refine ⟨fun hin => this.1 (List.mem_cons.mpr (Or.inr hin)), List.mem_cons.mpr (Or.inr this.2)⟩

theorem dedupAux_keys_nodup (seen : List String) (hs : List HotelWidget.HotelResult) :
    ((HotelWidget.dedupAux seen hs).map (fun h => HotelWidget.nameKey h.name)).Nodup := by
  induction hs generalizing seen with
  | nil => simp [HotelWidget.dedupAux]
  | cons a t ih =>
      simp only [HotelWidget.dedupAux]
      split
      · exact ih seen
      · next hk =>
          simp only [List.map_cons, List.nodup_cons]
          refine ⟨fun hmem => ?_, ih _⟩
          rcases List.mem_map.mp hmem with ⟨d, hd, he⟩
          exact (mem_dedupAux hd).1 (he ▸ List.mem_cons_self _ _)

theorem dedupAux_covers {seen : List String} {hs : List HotelWidget.HotelResult}
    {d : HotelWidget.HotelResult} (hmem : d ∈ hs)
    (hnot : HotelWidget.nameKey d.name ∉ seen) :
    ∃ d', d' ∈ HotelWidget.dedupAux seen hs ∧
      HotelWidget.nameKey d'.name = HotelWidget.nameKey d.name := by
  induction hs generalizing seen with
  | nil => simp at hmem
  | cons a t ih =>
      simp only [HotelWidget.dedupAux]
      rcases List.mem_cons.mp hmem with rfl | hmem
      · split
        · next hk => exact absurd hk hnot
        · exact ⟨d, List.mem_cons_self _ _, rfl⟩
      · split
        · next hk => exact ih hmem hnot
        · next hk =>
            by_cases he : HotelWidget.nameKey d.name = HotelWidget.nameKey a.name
            · exact ⟨a, List.mem_cons_self _ _, he.symm⟩
            · obtain ⟨d', hd', hk'⟩ := ih hmem
                (fun hc => (List.mem_cons.mp hc).elim he hnot)
              exact ⟨d', List.mem_cons.mpr (Or.inr hd'), hk'⟩

theorem dedupAux_first {seen : List String} {hs : List HotelWidget.HotelResult}
    {d' : HotelWidget.HotelResult} (h : d' ∈ HotelWidget.dedupAux seen hs) :
    hs.find? (fun x => decide (HotelWidget.nameKey x.name = HotelWidget.nameKey d'.name)) =
      some d' := by
  induction hs generalizing seen with
  | nil => simp [HotelWidget.dedupAux] at h
  | cons a t ih =>
      simp only [HotelWidget.dedupAux] at h
      split at h
      · next hk =>
          have hnot := (mem_dedupAux h).1
          have hne : ¬ (HotelWidget.nameKey a.name = HotelWidget.nameKey d'.name) :=
            fun he => hnot (he ▸ hk)
          rw [List.find?_cons_of_neg _ (by simpa using hne)]
          exact ih h
      · next hk =>
          rcases List.mem_cons.mp h with rfl | h
          · rw [List.find?_cons_of_pos _ (by simp)]
          · have hnot := (mem_dedupAux h).1
            have hne : ¬ (HotelWidget.nameKey a.name = HotelWidget.nameKey d'.name) :=
              fun he => hnot (he ▸ List.mem_cons_self _ _)
            rw [List.find?_cons_of_neg _ (by simpa using hne)]
            exact ih h

theorem dedupHotels_ne_nil {hs : List HotelWidget.HotelResult} (h : hs ≠ []) :
    HotelWidget.dedupHotels hs ≠ [] := by
  cases hs with
  | nil => exact absurd rfl h
  | cons a t => simp [HotelWidget.dedupHotels, HotelWidget.dedupAux]

/-! Nonemptiness of the mock generators and the search pipelines. -/

theorem enum_map_ne_nil {α β : Type} (f : ℕ × α → β) {l : List α} (h : l ≠ []) :
    l.enum.map f ≠ [] := by
  apply List.ne_nil_of_length_pos
  rw [List.length_map, List.enum_length]
  exact List.length_pos.mpr h

theorem getMockDeals_ne_nil (params : FlightWidget.FlightSearchParams) (jitter : ℤ)
    (e : String) : FlightWidget.getMockDeals params jitter e ≠ [] := by
  simp [FlightWidget.getMockDeals]

theorem getMockHotels_ne_nil (params : HotelWidget.HotelSearchParams) (nights : ℕ) :
    HotelWidget.getMockHotels params nights ≠ [] := by
  simp only [HotelWidget.getMockHotels]
  apply enum_map_ne_nil
  split_ifs with h
  · simp
  · intro hnil
    exact h (by simp [hnil])

theorem rawSearchResults_ne_nil (outcome : ProviderOutcome HotelWidget.RawHotelOffer)
    (params : HotelWidget.HotelSearchParams) (nights : ℕ) :
    HotelWidget.rawSearchResults outcome params nights ≠ [] := by
  cases outcome with
  | notConfigured => simpa [HotelWidget.rawSearchResults] using getMockHotels_ne_nil params nights
  | failed => simpa [HotelWidget.rawSearchResults] using getMockHotels_ne_nil params nights
  | ok rs =>
      simp only [HotelWidget.rawSearchResults]
      split_ifs with h
      · exact getMockHotels_ne_nil params nights
      · intro hnil
        exact h (by simp [hnil])

/-! Membership decomposition of the three search pipelines. -/

theorem mem_searchFlights {outcome : ProviderOutcome FlightWidget.RawOffer}
    {params : FlightWidget.FlightSearchParams} {jitter : ℤ} {e12 e6 : String}
    {d : FlightWidget.FlightDeal}
    (h : d ∈ FlightWidget.searchFlights outcome params jitter e12 e6) :
    (∃ offers, outcome = ProviderOutcome.ok offers ∧
      d ∈ FlightWidget.parseAmadeusResults offers params e12) ∨
    d ∈ FlightWidget.getMockDeals params jitter e6 := by
  simp only [FlightWidget.searchFlights] at h
  have h1 := (mem_pySort _ _ _).mp (List.take_subset _ _ h)
  split at h1
  · exact Or.inr h1
  · cases outcome with
    | notConfigured => simp at h1
    | failed => simp at h1
    | ok offers => exact Or.inl ⟨offers, rfl, h1⟩

theorem mem_searchHotels {outcome : ProviderOutcome HotelWidget.RawHotelOffer}
    {params : HotelWidget.HotelSearchParams} {nights : ℕ} {d : HotelWidget.HotelResult}
    (h : d ∈ HotelWidget.searchHotels outcome params nights) :
    d ∈ HotelWidget.dedupHotels (HotelWidget.rawSearchResults outcome params nights) := by
  simp only [HotelWidget.searchHotels] at h
  exact (mem_pySort _ _ _).mp (List.take_subset _ _ h)

theorem mem_rawSearchResults {outcome : ProviderOutcome HotelWidget.RawHotelOffer}
    {params : HotelWidget.HotelSearchParams} {nights : ℕ} {d : HotelWidget.HotelResult}
    (h : d ∈ HotelWidget.rawSearchResults outcome params nights) :
    (∃ offers, outcome = ProviderOutcome.ok offers ∧
      d ∈ HotelWidget.parseAmadeusResults offers params nights) ∨
    d ∈ HotelWidget.getMockHotels params nights := by
  cases outcome with
  | notConfigured => exact Or.inr (by simpa [HotelWidget.rawSearchResults] using h)
  | failed => exact Or.inr (by simpa [HotelWidget.rawSearchResults] using h)
  | ok rs =>
      simp only [HotelWidget.rawSearchResults] at h
      split at h
      · exact Or.inr h
      · exact Or.inl ⟨rs, rfl, h⟩

theorem mem_searchRestaurants {params : RestaurantWidget.RestaurantSearchParams}
    {avail : ℕ → List String} {r : RestaurantWidget.RestaurantResult}
    (h : r ∈ RestaurantWidget.searchRestaurants params avail) :
    r ∈ RestaurantWidget.getMockRestaurants params avail := by
  simp only [RestaurantWidget.searchRestaurants] at h
  exact (mem_pySort _ _ _).mp (List.take_subset _ _ h)

theorem mock_restaurant_facts {params : RestaurantWidget.RestaurantSearchParams}
    {avail : ℕ → List String} {r : RestaurantWidget.RestaurantResult}
    (h : r ∈ RestaurantWidget.getMockRestaurants params avail) :
    r.source = "opentable" := by
  simp only [RestaurantWidget.getMockRestaurants, List.mem_map] at h
  obtain ⟨⟨idx, data⟩, hmem, rfl⟩ := h
  rfl

/-! The C4 commutation between truncate-then-clamp (code) and
clamp-then-truncate (spec wording). -/

theorem clamp_trunc_comm {s : ℚ} (hs : s ≤ 9) :
    max 1 (min 10 (pyInt s)) = pyInt (max 1 (min 10 s)) := by
  rw [pyInt_eq, pyInt_eq]
  rcases le_or_lt 1 s with h1 | h1
  · have h0 : (0:ℚ) ≤ s := le_trans zero_le_one h1
    have hmin : min 10 s = s := min_eq_right (le_trans hs (by norm_num))
    have hmax : max 1 (min 10 s) = s := by rw [hmin]; exact max_eq_right h1
    rw [hmax, if_pos h0]
    have hf1 : (1:ℤ) ≤ ⌊s⌋ := by
      rw [Int.le_floor]
      exact_mod_cast h1
    have hf9 : ⌊s⌋ ≤ 9 := by
      have h := Int.floor_le_floor (α := ℚ) hs
      have h9 : ⌊(9:ℚ)⌋ = 9 := by
        rw [show (9:ℚ) = ((9:ℤ):ℚ) by norm_num, Int.floor_intCast]
      omega
    omega
  · have hmin : min 10 s = s := min_eq_right (by linarith)
    have hmax : max 1 (min 10 s) = 1 := by rw [hmin]; exact max_eq_left (le_of_lt h1)
    rw [hmax, if_pos (by norm_num : (0:ℚ) ≤ 1), Int.floor_one]
    rcases le_or_lt 0 s with h0 | h0
    · rw [if_pos h0]
      have hz : ⌊s⌋ = 0 := by
        rw [Int.floor_eq_zero_iff]
        exact Set.mem_Ico.mpr ⟨h0, h1⟩
      omega
    · rw [if_neg (not_le.mpr h0)]
      have hc : ⌈s⌉ ≤ 0 := by
        rw [Int.ceil_le]
        exact_mod_cast le_of_lt h0
      omega

/-- Deal-score algorithm as worded by the claim and §4.3 of the spec:
classify against the cabin table, base 9/7/5/3, subtract 0.5 per stop,
clamp to [1,10], then truncate to an integer. Written from the spec's
words, for comparison with `FlightWidget.calculateDealScore`. -/
def dealScoreSpec (price : ℚ) (cabin : FlightWidget.CabinClass) (stops : ℤ) : ℤ :=
  let t : ℚ × ℚ × ℚ :=
    match cabin with
    | .ECONOMY => (400, 600, 900)
    | .PREMIUM_ECONOMY => (800, 1200, 1800)
    | .BUSINESS => (2000, 3000, 4500)
    | .FIRST => (4000, 6000, 9000)
  let base : ℚ :=
    if price ≤ t.1 then 9
    else if price ≤ t.2.1 then 7
    else if price ≤ t.2.2 then 5
    else 3
  let score := base - (stops : ℚ) * (1/2)
  pyInt (max 1 (min 10 score))

/-- C4: the flight deal score is computed exactly as specified — classify
the price against the cabin-specific thresholds (ECONOMY 400/600/900,
PREMIUM_ECONOMY 800/1200/1800, BUSINESS 2000/3000/4500, FIRST
4000/6000/9000) to a base score of 9, 7, 5 or 3, subtract 0.5 per stop,
clamp to [1,10] and truncate to an integer — for every price ≥ 0, every
cabin class and every stop count ≥ 0. The code truncates before clamping
but the two orders agree on this domain. -/
theorem c4_flight_deal_score_spec (price : ℚ) (cabin : FlightWidget.CabinClass)
    (stops : ℤ) (hprice : 0 ≤ price) (hs : 0 ≤ stops) :
    FlightWidget.calculateDealScore price cabin stops = dealScoreSpec price cabin stops := by
  have hq : (0:ℚ) ≤ (stops : ℚ) := by exact_mod_cast hs
  have hhalf : (0:ℚ) ≤ (stops : ℚ) * (1/2) := mul_nonneg hq (by norm_num)
  cases cabin <;>
  · apply clamp_trunc_comm
    split_ifs <;> linarith

/-- C1 (amended): every flight and hotel result from the Amadeus parsers
and the mock generators has an integer deal score in [1,10] and carries
exactly the §4.3 urgency tier of its deal score; the curated-hotel parser
instead stores the boosted score `base + 1` — which ranges over [2,11] and
reaches 11 — and computes urgency from the un-boosted score, i.e. from
`deal_score - 1`. The §4.3 step function is non-decreasing. -/
theorem c1_deal_score_urgency_amended :
    (∀ (offers : List FlightWidget.RawOffer) (params : FlightWidget.FlightSearchParams)
        (e : String) (d : FlightWidget.FlightDeal),
        d ∈ FlightWidget.parseAmadeusResults offers params e →
        1 ≤ d.dealScore ∧ d.dealScore ≤ 10 ∧ d.urgency.tier = specUrgency d.dealScore) ∧
    (∀ (params : FlightWidget.FlightSearchParams) (jitter : ℤ) (e : String)
        (d : FlightWidget.FlightDeal),
        d ∈ FlightWidget.getMockDeals params jitter e →
        1 ≤ d.dealScore ∧ d.dealScore ≤ 10 ∧ d.urgency.tier = specUrgency d.dealScore) ∧
    (∀ (offers : List HotelWidget.RawHotelOffer) (params : HotelWidget.HotelSearchParams)
        (nights : ℕ) (d : HotelWidget.HotelResult),
        d ∈ HotelWidget.parseAmadeusResults offers params nights →
        1 ≤ d.dealScore ∧ d.dealScore ≤ 10 ∧ d.urgency.tier = specUrgency d.dealScore) ∧
    (∀ (params : HotelWidget.HotelSearchParams) (nights : ℕ) (d : HotelWidget.HotelResult),
        d ∈ HotelWidget.getMockHotels params nights →
        1 ≤ d.dealScore ∧ d.dealScore ≤ 10 ∧ d.urgency.tier = specUrgency d.dealScore) ∧
    (∀ (rs : List HotelWidget.CuratedHotelRecord) (params : HotelWidget.HotelSearchParams)
        (nights : ℕ) (d : HotelWidget.HotelResult),
        d ∈ HotelWidget.parseCuratedResults rs params nights →
        2 ≤ d.dealScore ∧ d.dealScore ≤ 11 ∧ d.urgency.tier = specUrgency (d.dealScore - 1)) ∧
    (∀ s t : ℤ, s ≤ t → urgencyRank (specUrgency s) ≤ urgencyRank (specUrgency t)) := by
  refine ⟨?_, ?_, ?_, ?_, ?_, ?_⟩
  · intro offers params e d hd
    rcases List.mem_filterMap.mp hd with ⟨o, _, ho⟩
    exact (parse_flight_offer_facts ho).1
  · intro params jitter e d hd
    obtain ⟨h8, hu, -, -⟩ := mock_flight_deal_facts hd
    rw [h8, hu]
    exact ⟨by norm_num, by norm_num, by decide⟩
  · intro offers params nights d hd
    rcases List.mem_filterMap.mp hd with ⟨o, _, ho⟩
    exact (parse_hotel_offer_facts ho).1
  · intro params nights d hd
    obtain ⟨h8, hu, -, -⟩ := mock_hotel_facts hd
    rw [h8, hu]
    exact ⟨by norm_num, by norm_num, by decide⟩
  · intro rs params nights d hd
    rcases List.mem_filterMap.mp hd with ⟨r, _, hr⟩
    exact (parse_curated_facts hr).1
  · intro s t h
    exact specUrgency_mono h

/-- C2 (amended): for every Amadeus-normalized flight and hotel result,
`savings_percent` set ⟺ `original_price` set ⟺ `deal_score ≥ 7`, and when
set `original_price` is the ×1.35 (flights) / ×1.25 (hotels) markup of
the current price and `savings_percent` the fixed 26 / 20. Curated-hotel
results instead pass `original_price` and `savings_percent` straight
through from the raw record, independent of the score. -/
theorem c2_savings_original_amended :
    (∀ (offers : List FlightWidget.RawOffer) (params : FlightWidget.FlightSearchParams)
        (e : String) (d : FlightWidget.FlightDeal),
        d ∈ FlightWidget.parseAmadeusResults offers params e →
        ((d.savingsPercent ≠ none ↔ 7 ≤ d.dealScore) ∧
         (d.originalPrice ≠ none ↔ 7 ≤ d.dealScore) ∧
         (7 ≤ d.dealScore →
           d.originalPrice = some (d.price * (27/20)) ∧ d.savingsPercent = some 26))) ∧
    (∀ (offers : List HotelWidget.RawHotelOffer) (params : HotelWidget.HotelSearchParams)
        (nights : ℕ) (d : HotelWidget.HotelResult),
        d ∈ HotelWidget.parseAmadeusResults offers params nights →
        ((d.savingsPercent ≠ none ↔ 7 ≤ d.dealScore) ∧
         (d.originalPrice ≠ none ↔ 7 ≤ d.dealScore) ∧
         (7 ≤ d.dealScore →
           d.originalPrice = some (d.pricePerNight * (5/4)) ∧ d.savingsPercent = some 20))) ∧
    (∀ (rs : List HotelWidget.CuratedHotelRecord) (params : HotelWidget.HotelSearchParams)
        (nights : ℕ) (d : HotelWidget.HotelResult),
        d ∈ HotelWidget.parseCuratedResults rs params nights →
        ∃ r, r ∈ rs ∧ d.originalPrice = r.originalPrice ∧
          d.savingsPercent = r.savingsPercent) := by
  refine ⟨?_, ?_, ?_⟩
  · intro offers params e d hd
    rcases List.mem_filterMap.mp hd with ⟨o, _, ho⟩
    obtain ⟨-, hf1, hf2, hf3, -, -⟩ := parse_flight_offer_facts ho
    exact ⟨hf1, hf2, hf3⟩
  · intro offers params nights d hd
    rcases List.mem_filterMap.mp hd with ⟨o, _, ho⟩
    obtain ⟨-, hf1, hf2, hf3, -, -⟩ := parse_hotel_offer_facts ho
    exact ⟨hf1, hf2, hf3⟩
  · intro rs params nights d hd
    rcases List.mem_filterMap.mp hd with ⟨r, hr, hp⟩
    exact ⟨r, hr, (parse_curated_facts hp).2.1, (parse_curated_facts hp).2.2.1⟩

/-- C3 (amended): the per-domain `search()` never propagates a provider
failure and falls back to the mock generator when no result was
normalized; hotel search always returns a non-empty list, and flight
search returns a non-empty list provided the `max_results` cap is at
least 1 (with `max_results = 0` the final truncation empties the list). -/
theorem c3_search_nonempty_amended :
    (∀ (outcome : ProviderOutcome FlightWidget.RawOffer)
        (params : FlightWidget.FlightSearchParams) (jitter : ℤ) (e12 e6 : String),
        1 ≤ params.maxResults →
        FlightWidget.searchFlights outcome params jitter e12 e6 ≠ []) ∧
    (∀ (outcome : ProviderOutcome HotelWidget.RawHotelOffer)
        (params : HotelWidget.HotelSearchParams) (nights : ℕ),
        HotelWidget.searchHotels outcome params nights ≠ []) ∧
    (∀ (params : FlightWidget.FlightSearchParams) (jitter : ℤ) (e12 e6 : String),
        FlightWidget.searchFlights .notConfigured params jitter e12 e6 =
          (pySort FlightWidget.flightLt (FlightWidget.getMockDeals params jitter e6)).take
            params.maxResults) := by
  refine ⟨?_, ?_, ?_⟩
  · intro outcome params jitter e12 e6 hn
    simp only [FlightWidget.searchFlights]
    apply take_pySort_ne_nil _ _ hn
    split_ifs with h
    · exact getMockDeals_ne_nil params jitter e6
    · intro hnil
      exact h (by simp [hnil])
  · intro outcome params nights
    simp only [HotelWidget.searchHotels]
    exact take_pySort_ne_nil _
      (dedupHotels_ne_nil (rawSearchResults_ne_nil outcome params nights)) (by norm_num)
  · intro params jitter e12 e6
    rfl

/-- C5 (code bug): a webhook POST whose X-Hub-Signature-256 header does
not match the expected `"sha256=" ++ HMAC` digest is not processed
further, but the handler responds with HTTP 200 and a JSON error body
rather than an unauthorized status: the `raise HTTPException(401)` is
swallowed by the handler's own catch-all `except Exception`. -/
theorem c5_webhook_signature_bug (hmac : String → String → String)
    (secret sig body : String) (hsec : secret ≠ "") (hsig : sig ≠ "")
    (hne : sig ≠ "sha256=" ++ hmac secret body) :
    Webhook.whatsappIncoming hmac secret sig body true true =
      { httpStatus := 200, body := "error", processed := false } ∧
    (Webhook.whatsappIncoming hmac secret sig body true true).httpStatus ≠ 401 := by
  have h1 : Webhook.whatsappIncoming hmac secret sig body true true =
      { httpStatus := 200, body := "error", processed := false } := by
    simp [Webhook.whatsappIncoming, hsec, hsig, hne]
  exact ⟨h1, by rw [h1]; decide⟩

/-- C9: when the X-Hub-Signature-256 header is absent or empty the
signature check is skipped entirely — the request is handled exactly as
if no app secret were configured, and the payload is processed whenever
it decodes and parses — and a signature-based rejection can only happen
when the secret is configured, the header is non-empty and it mismatches
the expected digest. -/
theorem c9_signature_skip (hmac : String → String → String) (secret body : String)
    (decodeOk parseOk : Bool) :
    (Webhook.whatsappIncoming hmac secret "" body decodeOk parseOk =
      Webhook.whatsappIncoming hmac "" "" body decodeOk parseOk) ∧
    (decodeOk = true → parseOk = true →
      (Webhook.whatsappIncoming hmac secret "" body decodeOk parseOk).processed = true) ∧
    (∀ sig : String,
      (Webhook.whatsappIncoming hmac secret sig body true true).processed = false →
      secret ≠ "" ∧ sig ≠ "" ∧ sig ≠ "sha256=" ++ hmac secret body) := by
  refine ⟨?_, ?_, ?_⟩
  · simp [Webhook.whatsappIncoming]
  · intro hdec hpar
    subst hdec
    subst hpar
    simp [Webhook.whatsappIncoming]
  · intro sig h
    simp only [Webhook.whatsappIncoming, Bool.not_true] at h
    by_cases h1 : secret ≠ "" ∧ sig ≠ ""
    · rw [if_pos h1] at h
      by_cases h2 : sig ≠ "sha256=" ++ hmac secret body
      · exact ⟨h1.1, h1.2, h2⟩
      · rw [if_neg h2] at h
        simp at h
    · rw [if_neg h1] at h
      simp at h

/-- C8: the outbound sender never raises past its boundary — it is a
total function into structured results: with absent credentials it
returns the `{success: true, mock: true, preview: <message>}` dry-run
without attempting delivery, and when delivery is attempted and fails
(non-200 response or exception) it returns `{success: false, error}`. -/
theorem c8_sender_boundary (accessToken phoneNumberId : Option String)
    (message : String) (outcome : WhatsAppSender.HttpOutcome) :
    (WhatsAppSender.isConfigured accessToken phoneNumberId = false →
      WhatsAppSender.sendMessage accessToken phoneNumberId message outcome =
        { success := true, mock := some true,
          message := some "WhatsApp not configured - showing preview",
          preview := some message }) ∧
    (∀ (s : ℕ) (t j : String),
      WhatsAppSender.isConfigured accessToken phoneNumberId = true →
      outcome = .response s t j → s ≠ 200 →
      (WhatsAppSender.sendMessage accessToken phoneNumberId message outcome).success = false ∧
      (WhatsAppSender.sendMessage accessToken phoneNumberId message outcome).error = some t) ∧
    (∀ m : String,
      WhatsAppSender.isConfigured accessToken phoneNumberId = true →
      outcome = .exception m →
      (WhatsAppSender.sendMessage accessToken phoneNumberId message outcome).success = false ∧
      (WhatsAppSender.sendMessage accessToken phoneNumberId message outcome).error = some m) := by
  refine ⟨?_, ?_, ?_⟩
  · intro hconf
    simp [WhatsAppSender.sendMessage, hconf]
  · intro s t j hconf hout hs
    subst hout
    simp [WhatsAppSender.sendMessage, hconf, hs]
  · intro m hconf hout
    subst hout
    simp [WhatsAppSender.sendMessage, hconf]

/-- C10: every result of the flight and hotel search pipelines — mock
fallback included — carries `source = "amadeus"` and an id prefixed
`"amadeus_"`, every restaurant result carries `source = "opentable"`,
and no result ever carries `source = "mock"`, so mock fallbacks are
indistinguishable from live results by their source tag. -/
theorem c10_source_tags :
    (∀ (outcome : ProviderOutcome FlightWidget.RawOffer)
        (params : FlightWidget.FlightSearchParams) (jitter : ℤ) (e12 e6 : String)
        (d : FlightWidget.FlightDeal),
        d ∈ FlightWidget.searchFlights outcome params jitter e12 e6 →
        d.source = "amadeus" ∧ pyStartsWith d.id "amadeus_" = true ∧ d.source ≠ "mock") ∧
    (∀ (outcome : ProviderOutcome HotelWidget.RawHotelOffer)
        (params : HotelWidget.HotelSearchParams) (nights : ℕ) (d : HotelWidget.HotelResult),
        d ∈ HotelWidget.searchHotels outcome params nights →
        d.source = "amadeus" ∧ pyStartsWith d.id "amadeus_" = true ∧ d.source ≠ "mock") ∧
    (∀ (params : RestaurantWidget.RestaurantSearchParams) (avail : ℕ → List String)
        (r : RestaurantWidget.RestaurantResult),
        r ∈ RestaurantWidget.searchRestaurants params avail →
        r.source = "opentable" ∧ r.source ≠ "mock") := by
  refine ⟨?_, ?_, ?_⟩
  · intro outcome params jitter e12 e6 d hd
    rcases mem_searchFlights hd with ⟨offers, -, hp⟩ | hm
    · rcases List.mem_filterMap.mp hp with ⟨o, -, ho⟩
      obtain ⟨-, -, -, -, hsrc, hid⟩ := parse_flight_offer_facts ho
      refine ⟨hsrc, ?_, by rw [hsrc]; decide⟩
      rw [hid]
      exact pyStartsWith_append _ _
    · obtain ⟨-, -, hsrc, hid⟩ := mock_flight_deal_facts hm
      refine ⟨hsrc, ?_, by rw [hsrc]; decide⟩
      rw [hid]
      exact pyStartsWith_append3 _ _ _ _
  · intro outcome params nights d hd
    have hraw := (mem_dedupAux (mem_searchHotels hd)).2
    rcases mem_rawSearchResults hraw with ⟨offers, -, hp⟩ | hm
    · rcases List.mem_filterMap.mp hp with ⟨o, -, ho⟩
      obtain ⟨-, -, -, -, hsrc, hid⟩ := parse_hotel_offer_facts ho
      refine ⟨hsrc, ?_, by rw [hsrc]; decide⟩
      rw [hid]
      exact pyStartsWith_append _ _
    · obtain ⟨-, -, hsrc, hid⟩ := mock_hotel_facts hm
      exact ⟨hsrc, hid, by rw [hsrc]; decide⟩
  · intro params avail r hr
    have hsrc := mock_restaurant_facts (mem_searchRestaurants hr)
    exact ⟨hsrc, by rw [hsrc]; decide⟩

/-- C6 (amended): hotel deduplication keeps, for each case/space-
insensitive 20-character name-prefix key, exactly the first raw result
with that key — the deduplicated list has pairwise distinct keys, covers
every input key, and each survivor is the `find?`-first input entry with
its key, irrespective of deal scores — and every search output element is
such a survivor. (The search output itself may omit a key entirely when
the top-10 truncation drops the survivor, so "exactly one appears in the
output" holds for the deduplicated list, not the truncated one.) -/
theorem c6_hotel_dedup_amended :
    (∀ hs : List HotelWidget.HotelResult,
        ((HotelWidget.dedupHotels hs).map (fun h => HotelWidget.nameKey h.name)).Nodup) ∧
    (∀ (hs : List HotelWidget.HotelResult) (d : HotelWidget.HotelResult), d ∈ hs →
        ∃ d', d' ∈ HotelWidget.dedupHotels hs ∧
          HotelWidget.nameKey d'.name = HotelWidget.nameKey d.name) ∧
    (∀ (hs : List HotelWidget.HotelResult) (d' : HotelWidget.HotelResult),
        d' ∈ HotelWidget.dedupHotels hs →
        hs.find? (fun x => decide (HotelWidget.nameKey x.name = HotelWidget.nameKey d'.name)) =
          some d') ∧
    (∀ (outcome : ProviderOutcome HotelWidget.RawHotelOffer)
        (params : HotelWidget.HotelSearchParams) (nights : ℕ) (d : HotelWidget.HotelResult),
        d ∈ HotelWidget.searchHotels outcome params nights →
        d ∈ HotelWidget.dedupHotels (HotelWidget.rawSearchResults outcome params nights)) := by
  refine ⟨?_, ?_, ?_, ?_⟩
  · intro hs
    exact dedupAux_keys_nodup [] hs
  · intro hs d hd
    exact dedupAux_covers hd (List.not_mem_nil _)
  · intro hs d' hd'
    exact dedupAux_first hd'
  · intro outcome params nights d hd
    exact mem_searchHotels hd

/-- The fields of a mock flight deal that do not depend on the jittered
price: everything except `price`, `original_price` and `deep_link`. -/
def jitterStableFields (d : FlightWidget.FlightDeal) :
    String × String × String × String × String × String × String × String × String ×
    Option String × String × String × String × ℤ × ℤ × Option ℤ ×
    FlightWidget.DealUrgency × Option String × Bool × String × Option String ×
    Option String :=
  (d.id, d.origin, d.destination, d.routeDisplay, d.currency, d.cabinClass, d.airline,
   d.airlineName, d.departureDate, d.returnDate, d.departureTime, d.arrivalTime, d.duration,
   d.stops, d.dealScore, d.savingsPercent, d.urgency, d.expiresAt, d.isMistakeFare,
   d.source, d.bookingUrl, d.imageUrl)

/-- C7 (amended): a flight search for JFK→CDG in BUSINESS with no
provider configured returns exactly one mock deal, whose price is
`1847 + jitter` for the bounded jitter (hence within ±200 of 1847), with
`dealScore = 8`, `urgency = high`, `stops = 0`, `isMistakeFare = false`,
carrier AF; every field except the price and the price-derived
`original_price` and `deep_link` is independent of the jitter (the
original claim said all fields other than price are deterministic, but
`original_price = int(price × 1.35)` and the SMS deep link embed the
jittered price). -/
theorem c7_mock_flight_amended (e12 e6 : String) (j : ℤ)
    (h1 : -200 ≤ j) (h2 : j ≤ 200) :
    ∃ d : FlightWidget.FlightDeal,
      FlightWidget.searchFlights .notConfigured
        { origin := "JFK", destination := "CDG", departureDate := "2025-06-01" }
        j e12 e6 = [d] ∧
      d.price = 1847 + (j : ℚ) ∧
      1647 ≤ d.price ∧ d.price ≤ 2047 ∧
      d.dealScore = 8 ∧ d.urgency = .high ∧ d.stops = 0 ∧
      d.isMistakeFare = false ∧ d.airline = "AF" ∧
      (∀ j2 : ℤ, -200 ≤ j2 → j2 ≤ 200 →
        (FlightWidget.searchFlights .notConfigured
          { origin := "JFK", destination := "CDG", departureDate := "2025-06-01" }
          j2 e12 e6).map jitterStableFields =
        (FlightWidget.searchFlights .notConfigured
          { origin := "JFK", destination := "CDG", departureDate := "2025-06-01" }
          j e12 e6).map jitterStableFields) := by
  have hcl : ((-200 : ℤ) : ℚ) ≤ (j : ℚ) := by exact_mod_cast h1
  have hcu : ((j : ℤ) : ℚ) ≤ ((200 : ℤ) : ℚ) := by exact_mod_cast h2
  push_cast at hcl hcu
  refine ⟨_, rfl, rfl, ?_, ?_, rfl, rfl, rfl, rfl, rfl, ?_⟩
  · show (1647 : ℚ) ≤ 1847 + (j : ℚ)
    linarith
  · show (1847 : ℚ) + (j : ℚ) ≤ 2047
    linarith
  · intro j2 hb1 hb2
    rfl

/-! Concrete inputs for the C6 counterexample: ten distinct-name cheap
hotels followed by two records whose names normalize to the same
20-character key, both scoring low. -/

/-- Twelve raw hotel offers: `A0 … A9` (price 200, rating 4.9, score 10)
then `"Dup Hotel"` and `"DUPHOTEL"` (same name key, scores 3). -/
def dupOffers : List HotelWidget.RawHotelOffer :=
  ((List.range 10).map fun i =>
    { hotel := { hotelId := toString i, name := some ("A" ++ toString i), rating := 4.9 }
      offers := [{ priceTotal := 200 }] }) ++
  [{ hotel := { hotelId := "d1", name := some "Dup Hotel", rating := 4 }
     offers := [{ priceTotal := 2000 }] },
   { hotel := { hotelId := "d2", name := some "DUPHOTEL", rating := 4 }
     offers := [{ priceTotal := 900 }] }]

/-- Search parameters for the C6 counterexample. -/
def dupParams : HotelWidget.HotelSearchParams :=
  { location := "paris", checkIn := "2025-06-01", checkOut := "2025-06-02" }

section

attribute [local semireducible] Rat.add Rat.mul Rat.sub Rat.inv Rat.ofScientific

/-- C1 counterexample: the curated-hotel parser emits a result whose
deal score is 11 (outside 1..10) for a 300-per-night 4.9-rated record,
and a result with deal score 9 whose urgency is `high`, not the
`critical` prescribed by the §4.3 step at 9 — so the claim as stated
fails on the curated search path. -/
theorem c1_counterexample :
    ¬ (∀ d ∈ HotelWidget.parseCuratedResults
        [{ price := some 300, rating := some 4.9 },
         { name := some "B Hotel", price := some 400, rating := some 4.5 }]
        { location := "paris", checkIn := "2025-06-01", checkOut := "2025-06-03" } 2,
        1 ≤ d.dealScore ∧ d.dealScore ≤ 10 ∧
          d.urgency.tier = specUrgency d.dealScore) := by
  decide

/-- C1 witness: the amended theorem applied to a concrete Amadeus flight
offer, a concrete curated record and concrete scores. -/
theorem c1_deal_score_urgency_amended_witness :
    (1 ≤ ((FlightWidget.parseAmadeusResults
        [{ id := "F1", priceTotal := 1900,
           itineraries := [{ segments := [{ carrierCode := some "AF" }],
                             duration := "PT7H15M" }] }]
        { origin := "JFK", destination := "CDG", departureDate := "2025-06-01" }
        "T12").get ⟨0, by decide⟩).dealScore ∧
     ((FlightWidget.parseAmadeusResults
        [{ id := "F1", priceTotal := 1900,
           itineraries := [{ segments := [{ carrierCode := some "AF" }],
                             duration := "PT7H15M" }] }]
        { origin := "JFK", destination := "CDG", departureDate := "2025-06-01" }
        "T12").get ⟨0, by decide⟩).dealScore ≤ 10) ∧
    2 ≤ ((HotelWidget.parseCuratedResults
        [{ price := some 250, rating := some 4.0 }]
        { location := "tokyo", checkIn := "2025-06-01", checkOut := "2025-06-02" }
        1).get ⟨0, by decide⟩).dealScore ∧
    ((3:ℤ) ≤ 9 ∧ urgencyRank (specUrgency 3) ≤ urgencyRank (specUrgency 9)) := by
  refine ⟨?_, ?_, ?_⟩
  · exact ⟨(c1_deal_score_urgency_amended.1 _ _ _ _ (List.get_mem _ 0 (by decide))).1,
           (c1_deal_score_urgency_amended.1 _ _ _ _ (List.get_mem _ 0 (by decide))).2.1⟩
  · exact (c1_deal_score_urgency_amended.2.2.2.2.1 _ _ _ _ (List.get_mem _ 0 (by decide))).1
  · exact ⟨by decide, c1_deal_score_urgency_amended.2.2.2.2.2 3 9 (by decide)⟩

/-- C2 counterexample: a curated record without `originalPrice` or
`savingsPercent` yields a result with deal score 11 ≥ 7 but unset
savings and original price, refuting the claimed equivalence for the
curated normalizer. -/
theorem c2_counterexample :
    ¬ (∀ d ∈ HotelWidget.parseCuratedResults
        [{ price := some 250, rating := some 4.8 }]
        { location := "bali", checkIn := "2025-06-01", checkOut := "2025-06-02" } 1,
        (d.savingsPercent ≠ none ↔ 7 ≤ d.dealScore)) := by
  decide

/-- C2 witness: the amended theorem applied to a concrete Amadeus flight
offer. -/
theorem c2_savings_original_amended_witness :
    (((FlightWidget.parseAmadeusResults
        [{ id := "F2", priceTotal := 1500,
           itineraries := [{ segments := [{ carrierCode := some "BA" }] }] }]
        { origin := "JFK", destination := "LHR", departureDate := "2025-07-01" }
        "T").get ⟨0, by decide⟩).originalPrice ≠ none ↔
      7 ≤ ((FlightWidget.parseAmadeusResults
        [{ id := "F2", priceTotal := 1500,
           itineraries := [{ segments := [{ carrierCode := some "BA" }] }] }]
        { origin := "JFK", destination := "LHR", departureDate := "2025-07-01" }
        "T").get ⟨0, by decide⟩).dealScore) := by
  exact (c2_savings_original_amended.1 _ _ _ _ (List.get_mem _ 0 (by decide))).2.1

/-- C3 counterexample: well-formed flight search parameters with the
unvalidated result cap `max_results = 0` make `search()` return an empty
list even though the mock fallback produced a deal. -/
theorem c3_counterexample :
    FlightWidget.searchFlights .notConfigured
      { origin := "JFK", destination := "CDG", departureDate := "2025-06-01",
        maxResults := 0 } 0 "T12" "T6" = [] := by
  decide

/-- C3 witness: the amended theorem applied to concrete flight and hotel
searches. -/
theorem c3_search_nonempty_amended_witness :
    (1 ≤ ({ origin := "JFK", destination := "CDG", departureDate := "2025-06-01" } :
        FlightWidget.FlightSearchParams).maxResults ∧
      FlightWidget.searchFlights .notConfigured
        { origin := "JFK", destination := "CDG", departureDate := "2025-06-01" }
        0 "A" "B" ≠ []) ∧
    HotelWidget.searchHotels .notConfigured
      { location := "paris", checkIn := "2025-06-01", checkOut := "2025-06-02" } 1 ≠ [] := by
  exact ⟨⟨by decide, c3_search_nonempty_amended.1 _ _ _ _ _ (by decide)⟩,
         c3_search_nonempty_amended.2.1 _ _ _⟩

/-- C4 witness: the spec and code deal-score algorithms agree at a
concrete price, cabin and stop count. -/
theorem c4_flight_deal_score_spec_witness :
    ((0:ℚ) ≤ 2500 ∧ (0:ℤ) ≤ 1) ∧
    FlightWidget.calculateDealScore 2500 .BUSINESS 1 = dealScoreSpec 2500 .BUSINESS 1 := by
  exact ⟨⟨by decide, by decide⟩,
         c4_flight_deal_score_spec 2500 .BUSINESS 1 (by decide) (by decide)⟩

/-- C5 witness: a concrete mismatched-signature request is answered with
HTTP 200 and the error body, not 401, and is not processed. -/
theorem c5_webhook_signature_bug_witness :
    (("secret" : String) ≠ "" ∧ ("sha256=bad" : String) ≠ "" ∧
      ("sha256=bad" : String) ≠ "sha256=" ++ (fun _ _ => "feed") "secret" "body") ∧
    Webhook.whatsappIncoming (fun _ _ => "feed") "secret" "sha256=bad" "body" true true =
      { httpStatus := 200, body := "error", processed := false } := by
  exact ⟨⟨by decide, by decide, by decide⟩,
    (c5_webhook_signature_bug (fun _ _ => "feed") "secret" "sha256=bad" "body"
      (by decide) (by decide) (by decide)).1⟩

/-- C6 counterexample: with twelve parsed results of which the last two
share the name key `"duphotel"`, the pre-dedup input has 12 entries, the
dedup keeps the first duplicate, but the top-10 truncation then drops it:
no result with that key appears in the search output at all, refuting
"exactly one of them appears in the output list". -/
theorem c6_counterexample :
    (HotelWidget.rawSearchResults (.ok dupOffers) dupParams 1).map
        (fun h => h.name) =
      ["A0", "A1", "A2", "A3", "A4", "A5", "A6", "A7", "A8", "A9",
       "Dup Hotel", "DUPHOTEL"] ∧
    HotelWidget.nameKey "Dup Hotel" = HotelWidget.nameKey "DUPHOTEL" ∧
    (HotelWidget.searchHotels (.ok dupOffers) dupParams 1).length = 10 ∧
    ∀ d ∈ HotelWidget.searchHotels (.ok dupOffers) dupParams 1,
      HotelWidget.nameKey d.name ≠ HotelWidget.nameKey "Dup Hotel" := by
  decide

/-- C6 witness: the amended theorem applied to the concrete mock hotel
list for Paris. -/
theorem c6_hotel_dedup_amended_witness :
    ((HotelWidget.dedupHotels (HotelWidget.getMockHotels
        { location := "paris", checkIn := "2025-06-01", checkOut := "2025-06-02" } 1)).map
      (fun h => HotelWidget.nameKey h.name)).Nodup ∧
    (HotelWidget.getMockHotels
        { location := "paris", checkIn := "2025-06-01", checkOut := "2025-06-02" } 1).find?
      (fun x => decide (HotelWidget.nameKey x.name =
        HotelWidget.nameKey ((HotelWidget.dedupHotels (HotelWidget.getMockHotels
          { location := "paris", checkIn := "2025-06-01", checkOut := "2025-06-02" } 1)).get
            ⟨0, by decide⟩).name)) =
      some ((HotelWidget.dedupHotels (HotelWidget.getMockHotels
        { location := "paris", checkIn := "2025-06-01", checkOut := "2025-06-02" } 1)).get
          ⟨0, by decide⟩) := by
  exact ⟨c6_hotel_dedup_amended.1 _,
         c6_hotel_dedup_amended.2.2.1 _ _ (List.get_mem _ 0 (by decide))⟩

/-- C7 counterexample: two in-bounds jitters produce mock JFK→CDG deals
that differ in `original_price` (2493 vs 2763), refuting "all fields
other than the jittered price are deterministic given the route key". -/
theorem c7_counterexample :
    (FlightWidget.searchFlights .notConfigured
        { origin := "JFK", destination := "CDG", departureDate := "2025-06-01" }
        0 "E" "F").map (fun d => d.originalPrice) = [some 2493] ∧
    (FlightWidget.searchFlights .notConfigured
        { origin := "JFK", destination := "CDG", departureDate := "2025-06-01" }
        200 "E" "F").map (fun d => d.originalPrice) = [some 2763] ∧
    ((-200 : ℤ) ≤ 0 ∧ (0 : ℤ) ≤ 200 ∧ (-200 : ℤ) ≤ 200 ∧ (200 : ℤ) ≤ 200) ∧
    some (2493 : ℚ) ≠ some (2763 : ℚ) := by
  decide

/-- C7 witness: the amended theorem instantiated at jitter 0. -/
theorem c7_mock_flight_amended_witness :
    ((-200 : ℤ) ≤ 0 ∧ (0 : ℤ) ≤ 200) ∧
    (∃ d : FlightWidget.FlightDeal,
      FlightWidget.searchFlights .notConfigured
        { origin := "JFK", destination := "CDG", departureDate := "2025-06-01" }
        0 "E12" "E6" = [d] ∧
      d.price = 1847 + ((0 : ℤ) : ℚ) ∧
      1647 ≤ d.price ∧ d.price ≤ 2047 ∧
      d.dealScore = 8 ∧ d.urgency = .high ∧ d.stops = 0 ∧
      d.isMistakeFare = false ∧ d.airline = "AF" ∧
      (∀ j2 : ℤ, -200 ≤ j2 → j2 ≤ 200 →
        (FlightWidget.searchFlights .notConfigured
          { origin := "JFK", destination := "CDG", departureDate := "2025-06-01" }
          j2 "E12" "E6").map jitterStableFields =
        (FlightWidget.searchFlights .notConfigured
          { origin := "JFK", destination := "CDG", departureDate := "2025-06-01" }
          0 "E12" "E6").map jitterStableFields)) := by
  exact ⟨⟨by decide, by decide⟩,
         c7_mock_flight_amended "E12" "E6" 0 (by decide) (by decide)⟩

/-- C8 witness: the sender boundary theorem at concrete credentials — a
dry-run without credentials and a structured failure on a 500 response. -/
theorem c8_sender_boundary_witness :
    (WhatsAppSender.isConfigured none none = false ∧
      WhatsAppSender.sendMessage none none "hello" (.exception "boom") =
        { success := true, mock := some true,
          message := some "WhatsApp not configured - showing preview",
          preview := some "hello" }) ∧
    (WhatsAppSender.isConfigured (some "tok") (some "pid") = true ∧
      (WhatsAppSender.sendMessage (some "tok") (some "pid") "hi"
        (.response 500 "bad" "x")).success = false ∧
      (WhatsAppSender.sendMessage (some "tok") (some "pid") "hi"
        (.response 500 "bad" "x")).error = some "bad") := by
  have h := (c8_sender_boundary (some "tok") (some "pid") "hi"
    (.response 500 "bad" "x")).2.1 500 "bad" "x" (by decide) rfl (by decide)
  exact ⟨⟨by decide, (c8_sender_boundary none none "hello" (.exception "boom")).1 (by decide)⟩,
         ⟨by decide, h.1, h.2⟩⟩

/-- C9 witness: a concrete request with an empty signature header is
handled as if unauthenticated checking were absent, and is processed. -/
theorem c9_signature_skip_witness :
    (Webhook.whatsappIncoming (fun _ _ => "D") "sec" "" "b" true true =
      Webhook.whatsappIncoming (fun _ _ => "D") "" "" "b" true true) ∧
    (Webhook.whatsappIncoming (fun _ _ => "D") "sec" "" "b" true true).processed = true := by
  exact ⟨(c9_signature_skip (fun _ _ => "D") "sec" "b" true true).1,
         (c9_signature_skip (fun _ _ => "D") "sec" "b" true true).2.1 rfl rfl⟩

/-- C10 witness: source tags of concrete flight, hotel and restaurant
search results. -/
theorem c10_source_tags_witness :
    ((FlightWidget.searchFlights .notConfigured
        { origin := "JFK", destination := "CDG", departureDate := "2025-06-01" }
        0 "A" "B").get ⟨0, by decide⟩).source = "amadeus" ∧
    ((HotelWidget.searchHotels .notConfigured
        { location := "paris", checkIn := "2025-06-01", checkOut := "2025-06-02" }
        1).get ⟨0, by decide⟩).source = "amadeus" ∧
    ((RestaurantWidget.searchRestaurants
        { location := "paris", date := "2025-06-02", time := "19:00" }
        (fun _ => ["18:00", "18:30", "19:00", "19:30"])).get
      ⟨0, by decide⟩).source = "opentable" := by
  refine ⟨?_, ?_, ?_⟩
  · exact (c10_source_tags.1 _ _ _ _ _ _ (List.get_mem _ 0 (by decide))).1
  · exact (c10_source_tags.2.1 _ _ _ _ (List.get_mem _ 0 (by decide))).1
  · exact (c10_source_tags.2.2 _ _ _ (List.get_mem _ 0 (by decide))).1

end

end LuxuryTravel
